import Mathlib

/-!
# Reviews pipeline of `script.js`

A shallow embedding of the reviews data-loading pipeline of `src/script.js`
(HTML escaping, star rendering, review list rendering, the dual-transport
fetch step, the JSONP fallback and the refresh cycle), followed by the
properties established about it.

Conventions of the embedding:
* JavaScript strings are Lean strings (sequences of Unicode scalar values); the
  characters `escapeHtml` looks for are single UTF-16 units, so replacing them
  unit by unit and character by character is the same;
* JavaScript numbers are exact: integers are `Int`, the rating average is `ℚ`;
* records are typed as the endpoint documents them: a review has an integer
  rating, a summary has a numeric average and an integer total, `error` is a
  string when present; the version token is any primitive value;
* DOM elements looked up with `document.getElementById` are optional, as in
  the source, where every use is guarded by a presence test;
* asynchronous steps are given by their outcome, and refresh cycles do not
  overlap;
* the record of calls in the state and the counters of `cleanup` in a fallback
  request are there to count what the code does; the code does not read them.
-/

namespace Reviews

/-! ## Values and template interpolation -/

/-- JavaScript values that reach the string-building code. -/
inductive JsValue where
  | undefined
  | null
  | bool (b : Bool)
  | num (n : Int)
  | str (s : String)
  deriving DecidableEq, Repr

/-- Decimal text of an integer, as the template interpolation of a number gives it. -/
def intToString (n : Int) : String :=
  if n < 0 then "-" ++ toString n.natAbs else toString n.natAbs

/-- String conversion performed by a template interpolation on a value. -/
def JsValue.toJsString : JsValue → String
  | .undefined => "undefined"
  | .null => "null"
  | .bool true => "true"
  | .bool false => "false"
  | .num n => intToString n
  | .str s => s

/-! ## `escapeHtml` (script.js 610-626) -/

/-- The replacement table `map` of `escapeHtml`, applied to one character:
the five special characters go to their entity, every other character to itself. -/
def escapeChar (c : Char) : List Char :=
  if c = '&' then "&amp;".data
  else if c = '<' then "&lt;".data
  else if c = '>' then "&gt;".data
  else if c = '"' then "&quot;".data
  else if c = '\'' then "&#039;".data
  else [c]

/-- The global replace of `escapeHtml` over the characters of a string: the
regular expression matches single characters, so each one is replaced on its own. -/
def escapeChars : List Char → List Char
  | [] => []
  | c :: cs => escapeChar c ++ escapeChars cs

/-- The string branch of `escapeHtml`. -/
def escapeHtmlString (s : String) : String :=
  String.mk (escapeChars s.data)

/-- The function `escapeHtml`: a value that is not a string is returned as it is. -/
def escapeHtml : JsValue → JsValue
  | .str s => .str (escapeHtmlString s)
  | v => v

/-! ## Star glyphs (script.js 214-224 and 243-258) -/

/-- Markup of a filled star glyph. -/
def filledStar : String := "<span class=\"star filled\">★</span>"

/-- Markup of an empty star glyph. -/
def emptyStar : String := "<span class=\"star\">☆</span>"

/-- The loop `for (let i = 1; i <= 5; i++)` accumulating markup, `body i` being
what iteration `i` appends. -/
def starLoop (body : Int → String) : String :=
  [1, 2, 3, 4, 5].foldl (fun starsHTML i => starsHTML ++ body i) ""

/-- The function `generateStarsHTML`. -/
def generateStarsHTML (rating : Int) : String :=
  starLoop (fun i => if i ≤ rating then filledStar else emptyStar)

/-- The remainder `x % 1` of JavaScript: it has the sign of `x`, that is, `x` minus
its truncation towards zero. -/
def jsRemOne (x : ℚ) : ℚ :=
  if 0 ≤ x then x - ⌊x⌋ else x - ⌈x⌉

/-- The star markup computed inside `updateRatingSummary` from `summary.average`. -/
def averageStarsHTML (average : ℚ) : String :=
  let fullStars : Int := ⌊average⌋
  let hasHalfStar : Bool := decide (1 / 2 ≤ jsRemOne average)
  starLoop (fun i =>
    if i ≤ fullStars then filledStar
    else if i = fullStars + 1 ∧ hasHalfStar = true then filledStar
    else emptyStar)

/-! ## Data model -/

/-- A review record of the endpoint. The rating is the integer that
`generateStarsHTML` compares with; the other fields only reach the markup. -/
structure Review where
  id : JsValue
  name : JsValue
  date : JsValue
  rating : Int
  comment : JsValue
  deriving DecidableEq, Repr

/-- The rating summary of the endpoint. -/
structure Summary where
  average : ℚ
  total : Int
  deriving DecidableEq, Repr

/-- The object `data` received from the endpoint. Absent fields are `none`
(`undefined` for the version token). -/
structure Envelope where
  reviews : Option (List Review)
  summary : Option Summary
  lastUpdated : JsValue
  error : Option String
  deriving DecidableEq, Repr

/-- What a transport hands over as `data`: `null` or `undefined`, on which the
read of `data.error` throws a `TypeError` with the engine's message, or an object. -/
inductive Payload where
  | nullish (typeErrorMessage : String)
  | envelope (e : Envelope)
  deriving DecidableEq, Repr

/-! ## The page -/

/-- The parts of a DOM element the pipeline writes: `style.display` and the
text or markup content. -/
structure Element where
  display : String
  content : String
  deriving DecidableEq, Repr

/-- The rendering targets, each one present or absent in the document. -/
structure Dom where
  loadingMessage : Option Element
  errorMessage : Option Element
  noReviews : Option Element
  reviewsList : Option Element
  averageRating : Option Element
  averageStars : Option Element
  totalReviews : Option Element
  deriving DecidableEq, Repr

/-- Assignment to `style.display` guarded by the presence of the element. -/
def setDisplay (value : String) (el : Option Element) : Option Element :=
  el.map (fun e => { e with display := value })

/-- Assignment to `innerHTML` or `textContent` guarded by the presence of the element. -/
def setContent (value : String) (el : Option Element) : Option Element :=
  el.map (fun e => { e with content := value })

/-- Calls recorded while the pipeline runs, in the order they are made. -/
inductive Call where
  | loadWithJSONP
  | updateRatingSummary (summary : Option Summary)
  | displayReviews (reviews : List Review)
  | handleLoadError (message : String)
  deriving DecidableEq, Repr

/-- The global variables `reviewsData` and `lastUpdateTime`, the document, and
the record of calls made so far. -/
structure State where
  reviewsData : List Review
  lastUpdateTime : JsValue
  dom : Dom
  calls : List Call
  deriving DecidableEq, Repr

/-- The state at page load: `reviewsData = []`, `lastUpdateTime = null`. -/
def State.initial (dom : Dom) : State :=
  { reviewsData := [], lastUpdateTime := JsValue.null, dom := dom, calls := [] }

/-! ## Review list renderer (script.js 167-212) -/

/-- The function `createReviewHTML`. -/
def createReviewHTML (review : Review) : String :=
  let stars := generateStarsHTML review.rating
  let safeComment := escapeHtml review.comment
  let safeName := escapeHtml review.name
  "\n        <div class=\"review-item\" data-review-id=\"" ++ review.id.toJsString ++ "\">"
    ++ "\n            <div class=\"review-header\">"
    ++ "\n                <div>"
    ++ "\n                    <div class=\"review-name\">" ++ safeName.toJsString ++ "</div>"
    ++ "\n                    <div class=\"review-date\">" ++ review.date.toJsString ++ "</div>"
    ++ "\n                </div>"
    ++ "\n                <div class=\"review-rating\">" ++ stars ++ "</div>"
    ++ "\n            </div>"
    ++ "\n            <div class=\"review-comment\">" ++ safeComment.toJsString ++ "</div>"
    ++ "\n        </div>"
    ++ "\n    "

/-- The function `displayReviews` on the document. The delayed addition of the
class `review-visible` to the items is presentation only and is not tracked. -/
def displayReviewsDom (dom : Dom) (reviews : List Review) : Dom :=
  match dom.reviewsList with
  | none => dom
  | some _ =>
    if reviews.length = 0 then
      { dom with
        reviewsList := setContent "" dom.reviewsList
        noReviews := setDisplay "block" dom.noReviews }
    else
      { dom with
        noReviews := setDisplay "none" dom.noReviews
        reviewsList := setContent (String.join (reviews.map createReviewHTML)) dom.reviewsList }

/-- The function `displayReviews`, recorded as a call. -/
def displayReviews (s : State) (reviews : List Review) : State :=
  { s with dom := displayReviewsDom s.dom reviews, calls := s.calls ++ [Call.displayReviews reviews] }

/-! ## Rating summary renderer (script.js 226-259) -/

/-- The text `x.toFixed(1)` for an exact `x` (below `10^21` in absolute value):
the sign, then the nearest number of tenths, the larger one on a tie. -/
def toFixed1 (x : ℚ) : String :=
  let n : Nat := (⌊|x| * 10 + 1 / 2⌋).toNat
  let digits := toString (n / 10) ++ "." ++ toString (n % 10)
  if x < 0 then "-" ++ digits else digits

/-- The default `{ average: 0, total: 0 }` substituted for a missing summary. -/
def defaultSummary : Summary := { average := 0, total := 0 }

/-- The function `updateRatingSummary` on the document. -/
def updateRatingSummaryDom (dom : Dom) (summary : Option Summary) : Dom :=
  let summary := summary.getD defaultSummary
  { dom with
    averageRating := setContent (toFixed1 summary.average) dom.averageRating
    totalReviews := setContent (intToString summary.total) dom.totalReviews
    averageStars := setContent (averageStarsHTML summary.average) dom.averageStars }

/-- The function `updateRatingSummary`, recorded as a call. -/
def updateRatingSummary (s : State) (summary : Option Summary) : State :=
  { s with dom := updateRatingSummaryDom s.dom summary,
           calls := s.calls ++ [Call.updateRatingSummary summary] }

/-! ## Error path (script.js 143-165) -/

/-- The markup `handleLoadError` writes into the error element. -/
def errorHTML (message : String) : String :=
  "\n            <div style=\"text-align: center; padding: 2rem;\">"
    ++ "\n                <p>⚠️ No se pudieron cargar las reseñas: " ++ message ++ "</p>"
    ++ "\n                <button onclick=\"loadReviewsFromSheets(true)\" class=\"btn btn-secondary\" style=\"margin-top: 1rem;\">"
    ++ "\n                    🔄 Intentar de nuevo"
    ++ "\n                </button>"
    ++ "\n                <p style=\"font-size: 0.9rem; color: #7f8c8d; margin-top: 1rem;\">"
    ++ "\n                    Si el problema persiste, verifica que el Google Apps Script esté correctamente configurado."
    ++ "\n                </p>"
    ++ "\n            </div>"
    ++ "\n        "

/-- The function `handleLoadError`, called with `error.message`. -/
def handleLoadError (s : State) (message : String) : State :=
  let dom1 : Dom :=
    { s.dom with
      errorMessage := setContent (errorHTML message) (setDisplay "block" s.dom.errorMessage) }
  let dom2 : Dom :=
    if s.reviewsData.length = 0 then { dom1 with noReviews := setDisplay "block" dom1.noReviews }
    else dom1
  { s with dom := dom2, calls := s.calls ++ [Call.handleLoadError message] }

/-! ## Fallback transport `loadWithJSONP` (script.js 106-141) -/

/-- What the promise of `loadWithJSONP` settles to. -/
inductive JsonpResult where
  | resolved (data : Payload)
  | rejected (message : String)
  deriving DecidableEq, Repr

/-- The name `'jsonpCallback_' + Date.now()` for the clock reading `now`. -/
def callbackName (now : Nat) : String :=
  "jsonpCallback_" ++ toString now

/-- The closure state of one invocation of `loadWithJSONP`: its callback name,
whether its timer is pending, whether its script element is in the document,
its promise (`none` while pending), and counts of what its `cleanup` has done. -/
structure JsonpCall where
  callbackName : String
  timerArmed : Bool
  scriptAttached : Bool
  promise : Option JsonpResult
  cleanupCalls : Nat
  deregistrations : Nat
  removals : Nat
  deriving DecidableEq, Repr

/-- The page as the fallback transport sees it: the global object `window`,
giving for a property name the invocation whose callback it holds, and the
invocations of `loadWithJSONP` made so far. -/
structure Page where
  window : String → Option Nat
  calls : List JsonpCall

/-- A page on which `loadWithJSONP` has not been called. -/
def Page.empty : Page :=
  { window := fun _ => none, calls := [] }

/-- The body of the promise executor of `loadWithJSONP`, run at clock reading
`now`: the timer is started, the callback is stored in `window` under its name,
the script element is appended to the document head. -/
def loadWithJSONP (p : Page) (now : Nat) : Page :=
  let name := callbackName now
  { window := fun key => if key = name then some p.calls.length else p.window key
    calls := p.calls ++
      [{ callbackName := name, timerArmed := true, scriptAttached := true, promise := none,
         cleanupCalls := 0, deregistrations := 0, removals := 0 }] }

/-- The inner function `cleanup` of invocation `i`: `clearTimeout`, then the
guarded `delete window[callbackName]`, then the guarded `removeChild`. -/
def cleanup (p : Page) (i : Nat) : Page :=
  match p.calls[i]? with
  | none => p
  | some c =>
    let registered := (p.window c.callbackName).isSome
    { window :=
        if registered then fun key => if key = c.callbackName then none else p.window key
        else p.window
      calls := p.calls.set i
        { c with
          timerArmed := false
          scriptAttached := false
          cleanupCalls := c.cleanupCalls + 1
          deregistrations := if registered then c.deregistrations + 1 else c.deregistrations
          removals := if c.scriptAttached then c.removals + 1 else c.removals } }

/-- A call of `resolve` or `reject` of invocation `i`: it settles the promise
when it is pending and does nothing otherwise. -/
def settle (p : Page) (i : Nat) (result : JsonpResult) : Page :=
  match p.calls[i]? with
  | none => p
  | some c =>
    match c.promise with
    | none => { p with calls := p.calls.set i { c with promise := some result } }
    | some _ => p

/-- What can happen to a pending fallback request. -/
inductive JsonpEvent where
  /-- The 15 second timer of invocation `i` expires. -/
  | timeout (i : Nat)
  /-- The script element of invocation `i` fires its `error` event. -/
  | scriptError (i : Nat)
  /-- The response script of invocation `i` runs: it calls the global function
  named in its request with `data`. -/
  | scriptRuns (i : Nat) (data : Payload)
  deriving DecidableEq, Repr

/-- The handlers installed by `loadWithJSONP`, one event at a time. A cleared
timer does not fire; a response script that finds no global function under its
name fails without reaching any handler; the `onerror` handler stays on the
script element. -/
def jsonpStep (p : Page) : JsonpEvent → Page
  | .timeout i =>
    match p.calls[i]? with
    | none => p
    | some c =>
      if c.timerArmed then settle (cleanup p i) i (.rejected "Timeout en conexión JSONP")
      else p
  | .scriptError i =>
    match p.calls[i]? with
    | none => p
    | some _ => settle (cleanup p i) i (.rejected "Error al cargar script JSONP")
  | .scriptRuns i data =>
    match p.calls[i]? with
    | none => p
    | some c =>
      match p.window c.callbackName with
      | none => p
      | some owner => settle (cleanup p owner) owner (.resolved data)

/-- The page after a sequence of events. -/
def jsonpRun (p : Page) (events : List JsonpEvent) : Page :=
  events.foldl jsonpStep p

/-! ## Refresh cycle `loadReviewsFromSheets` (script.js 41-104) -/

/-- How the primary transport ends: `fetch` rejects, or it gives a response with
its `ok` flag and status, `json` being what `response.json()` gives (an error
when the body is not JSON). -/
inductive PrimaryOutcome where
  | rejected (message : String)
  | response (ok : Bool) (status : Nat) (json : Except String Payload)

/-- The result of the fetch step: the data or the thrown message, whether
`loadWithJSONP` was called, and the message of the primary failure that the
inner `catch` logs. -/
structure FetchResult where
  result : Except String Payload
  fallbackStarted : Bool
  fetchError : Option String

/-- The inner `try`/`catch` of `loadReviewsFromSheets`: the direct request, and
on any throw inside it the fallback, whose settlement is `fallback`. -/
def fetchData (primary : PrimaryOutcome) (fallback : JsonpResult) : FetchResult :=
  let viaFallback (fetchError : String) : FetchResult :=
    match fallback with
    | .resolved data => { result := .ok data, fallbackStarted := true, fetchError := some fetchError }
    | .rejected message =>
      { result := .error message, fallbackStarted := true, fetchError := some fetchError }
  match primary with
  | .rejected message => viaFallback message
  | .response true _ (.ok data) => { result := .ok data, fallbackStarted := false, fetchError := none }
  | .response true _ (.error message) => viaFallback message
  | .response false status _ => viaFallback ("HTTP " ++ toString status)

/-- The test `if (data.error)`: an absent field and the empty string are falsy. -/
def Envelope.hasError (e : Envelope) : Bool :=
  match e.error with
  | none => false
  | some message => decide (message ≠ "")

/-- Hides the loading element when there is one. -/
def hideLoading (s : State) : State :=
  { s with dom := { s.dom with loadingMessage := setDisplay "none" s.dom.loadingMessage } }

/-- The first statements of the `try` block: the loading element is shown when
`showLoading` holds, the error element is hidden. -/
def beginCycle (s : State) (showLoading : Bool) : State :=
  let s1 : State :=
    if showLoading then
      { s with dom := { s.dom with loadingMessage := setDisplay "block" s.dom.loadingMessage } }
    else s
  { s1 with dom := { s1.dom with errorMessage := setDisplay "none" s1.dom.errorMessage } }

/-- The state once the fetch step is over: a started fallback is on record. -/
def afterFetch (s : State) (fetched : FetchResult) : State :=
  if fetched.fallbackStarted then { s with calls := s.calls ++ [Call.loadWithJSONP] } else s

/-- The outer `try` block of `loadReviewsFromSheets`: the state where the block
ends and the message of the error it throws, if it throws. -/
def tryBlock (s : State) (showLoading : Bool) (primary : PrimaryOutcome)
    (fallback : JsonpResult) : State × Option String :=
  let fetched := fetchData primary fallback
  let s3 := afterFetch (beginCycle s showLoading) fetched
  match fetched.result with
  | .error message => (s3, some message)
  | .ok (.nullish typeErrorMessage) => (s3, some typeErrorMessage)
  | .ok (.envelope data) =>
    if data.hasError then (s3, some (data.error.getD ""))
    else
      let newUpdateTime := data.lastUpdated
      if s3.lastUpdateTime = newUpdateTime ∧ s3.reviewsData.length > 0 then
        (hideLoading s3, none)
      else
        let s4 : State :=
          { s3 with reviewsData := data.reviews.getD [], lastUpdateTime := newUpdateTime }
        let s5 := updateRatingSummary s4 data.summary
        (displayReviews s5 s5.reviewsData, none)

/-- The function `loadReviewsFromSheets`: the `try` block, the `catch` that
calls `handleLoadError`, and the `finally` that hides the loading element. -/
def loadReviewsFromSheets (s : State) (showLoading : Bool) (primary : PrimaryOutcome)
    (fallback : JsonpResult) : State :=
  let (s1, thrown) := tryBlock s showLoading primary fallback
  let s2 : State :=
    match thrown with
    | some message => handleLoadError s1 message
    | none => s1
  hideLoading s2

/-- One refresh cycle: the argument of the call and the outcomes of the two
transports (the second one is used only if the fallback is started). -/
structure Cycle where
  showLoading : Bool
  primary : PrimaryOutcome
  fallback : JsonpResult

/-- The call of `loadReviewsFromSheets` of one cycle. -/
def refresh (s : State) (c : Cycle) : State :=
  loadReviewsFromSheets s c.showLoading c.primary c.fallback

/-- Consecutive refresh cycles, none overlapping another. -/
def runCycles (s : State) (cycles : List Cycle) : State :=
  cycles.foldl refresh s

/-! ## Definitions used to state the properties -/

/-- Markup of a sequence of star glyphs, `true` standing for a filled one. -/
def glyphsHTML (filled : List Bool) : String :=
  String.join (filled.map (fun f => if f then filledStar else emptyStar))

/-- The five entities `escapeHtml` produces. -/
def entities : List (List Char) :=
  ["&amp;".data, "&lt;".data, "&gt;".data, "&quot;".data, "&#039;".data]

/-- Decoding of the five entities, left to right, as a reader of the markup does:
an entity gives its character, any other character stands for itself. -/
def decodeEntities : List Char → List Char
  | [] => []
  | c :: rest =>
    if "&amp;".data.isPrefixOf (c :: rest) then '&' :: decodeEntities (rest.drop 4)
    else if "&lt;".data.isPrefixOf (c :: rest) then '<' :: decodeEntities (rest.drop 3)
    else if "&gt;".data.isPrefixOf (c :: rest) then '>' :: decodeEntities (rest.drop 3)
    else if "&quot;".data.isPrefixOf (c :: rest) then '"' :: decodeEntities (rest.drop 5)
    else if "&#039;".data.isPrefixOf (c :: rest) then '\'' :: decodeEntities (rest.drop 5)
    else c :: decodeEntities rest
termination_by l => l.length
decreasing_by
  all_goals simp_wf
  all_goals omega

/-- Decoding of the five entities in a string. -/
def decodeHtmlString (s : String) : String :=
  String.mk (decodeEntities s.data)

/-- A document with every rendering target present, nothing displayed yet. -/
def Dom.full : Dom :=
  let blank : Option Element := some { display := "", content := "" }
  { loadingMessage := blank, errorMessage := blank, noReviews := blank, reviewsList := blank,
    averageRating := blank, averageStars := blank, totalReviews := blank }

/-- Whether a recorded call is a call of one of the two renderers. -/
def Call.isRender : Call → Bool
  | .updateRatingSummary _ => true
  | .displayReviews _ => true
  | _ => false

/-- The envelope a cycle gets past the test of `data.error`, if it does. -/
def Cycle.delivered (c : Cycle) : Option Envelope :=
  match (fetchData c.primary c.fallback).result with
  | .ok (.envelope e) => if e.hasError then none else some e
  | _ => none

/-- The data the primary transport delivers: the parsed body of a response
whose `ok` flag is set. -/
def PrimaryOutcome.delivers : PrimaryOutcome → Option Payload
  | .response true _ (.ok data) => some data
  | _ => none

/-- A duplicate in the words of the specification: an envelope with the token of
the one on display, while the one on display has reviews. -/
def isDuplicate (shown : Option Envelope) (e : Envelope) : Bool :=
  match shown with
  | none => false
  | some cur => decide (cur.lastUpdated = e.lastUpdated ∧ cur.reviews.getD [] ≠ [])

/-- The envelope on display after a sequence of delivered envelopes, in the words
of the specification: each envelope that is not a duplicate takes the place of
the one before. -/
def shownEnvelope : Option Envelope → List Envelope → Option Envelope
  | shown, [] => shown
  | shown, e :: es => shownEnvelope (if isDuplicate shown e then shown else some e) es

/-- Whether an envelope carries at least one review. -/
def hasReviews (e : Envelope) : Bool :=
  decide (e.reviews.getD [] ≠ [])

/-- Within a run of envelopes of one token: the first one that carries reviews,
and the last of the run when none does. -/
def firstWithReviewsOrLast (run : List Envelope) : Option Envelope :=
  match run.find? hasReviews with
  | some e => some e
  | none => run.getLast?

/-- What the list and summary regions of the document show for an envelope,
starting from the document `dom0`, wherever `dom0` has the region. -/
def Shows (dom0 dom : Dom) (e : Envelope) : Prop :=
  dom.reviewsList =
      setContent (String.join ((e.reviews.getD []).map createReviewHTML)) dom0.reviewsList ∧
    dom.averageRating =
      setContent (toFixed1 (e.summary.getD defaultSummary).average) dom0.averageRating ∧
    dom.totalReviews =
      setContent (intToString (e.summary.getD defaultSummary).total) dom0.totalReviews ∧
    dom.averageStars =
      setContent (averageStarsHTML (e.summary.getD defaultSummary).average) dom0.averageStars

/-- The relation between the envelope on display according to the specification
and the state of the page, for a page that started with the document `dom0`. -/
def Reflects (dom0 : Dom) (shown : Option Envelope) (s : State) : Prop :=
  match shown with
  | none =>
    s.reviewsData = [] ∧ s.lastUpdateTime = JsValue.null ∧ s.dom.reviewsList = dom0.reviewsList ∧
      s.dom.averageRating = dom0.averageRating ∧ s.dom.totalReviews = dom0.totalReviews ∧
      s.dom.averageStars = dom0.averageStars
  | some e =>
    s.reviewsData = e.reviews.getD [] ∧ s.lastUpdateTime = e.lastUpdated ∧ Shows dom0 s.dom e

/-- The text `part` occurs in the text `whole`. -/
def OccursIn (part whole : String) : Prop :=
  ∃ before after : String, whole = before ++ part ++ after

/-- The glyph sequence with `n` filled glyphs followed by empty ones, five in all. -/
def filledThenEmpty (n : Nat) : List Bool :=
  List.replicate n true ++ List.replicate (5 - n) false

/-- A review used in the examples. -/
def sampleReview : Review :=
  { id := .num 1, name := .str "A", date := .str "2024-01-01", rating := 5, comment := .str "Great" }

/-- An envelope whose `error` field is the empty string. -/
def emptyErrorEnvelope : Envelope :=
  { reviews := some [sampleReview], summary := none, lastUpdated := .str "v1", error := some "" }

/-- The envelope of the end-to-end example of the specification. -/
def sampleEnvelope : Envelope :=
  { reviews := some [sampleReview], summary := some { average := 5, total := 1 },
    lastUpdated := .str "v2", error := none }

/-- The two states of a page with one fallback request under the name `name`:
pending with nothing released and `cleanup` not yet run, or settled with
everything released, each release done once. -/
def JsonpInv (name : String) (p : Page) : Prop :=
  ∃ c, p.calls = [c] ∧ c.callbackName = name ∧
    ((c.promise = none ∧ c.timerArmed = true ∧ c.scriptAttached = true ∧
        p.window name = some 0 ∧ c.cleanupCalls = 0 ∧ c.deregistrations = 0 ∧ c.removals = 0) ∨
     (c.promise ≠ none ∧ c.timerArmed = false ∧ c.scriptAttached = false ∧
        p.window name = none ∧ 1 ≤ c.cleanupCalls ∧ c.deregistrations = 1 ∧ c.removals = 1))

/-- Two calls of `loadWithJSONP` made at the same clock reading. -/
def collidingPage : Page :=
  loadWithJSONP (loadWithJSONP Page.empty 1700000000000) 1700000000000

/-- The message of the error the `try` block of a cycle throws, if it throws: the
rejection of the fallback when both transports fail, the `TypeError` of the read
of `data.error` when the data is `null` or `undefined`, the `error` of the
envelope when the test `if (data.error)` holds. -/
def failureMessage (primary : PrimaryOutcome) (fallback : JsonpResult) : Option String :=
  match (fetchData primary fallback).result with
  | .error message => some message
  | .ok (.nullish typeErrorMessage) => some typeErrorMessage
  | .ok (.envelope e) => if e.hasError then some (e.error.getD "") else none

/-- The opening tag of the retry button in the markup of the error element. -/
def retryButton : String :=
  "<button onclick=\"loadReviewsFromSheets(true)\" class=\"btn btn-secondary\" style=\"margin-top: 1rem;\">"

/-- A state with one cached review under the token `v0` and every target present. -/
def cachedState : State :=
  { reviewsData := [sampleReview], lastUpdateTime := .str "v0", dom := Dom.full, calls := [] }

/-- The invocation of `loadWithJSONP` an event is addressed to. -/
def JsonpEvent.target : JsonpEvent → Nat
  | .timeout i => i
  | .scriptError i => i
  | .scriptRuns i _ => i

/-- What the handler of an event passes to `resolve` or `reject`. -/
def JsonpEvent.settlement : JsonpEvent → JsonpResult
  | .timeout _ => .rejected "Timeout en conexión JSONP"
  | .scriptError _ => .rejected "Error al cargar script JSONP"
  | .scriptRuns _ data => .resolved data

/-- A review whose name and comment hold special characters. -/
def specialReview : Review :=
  { id := .num 7, name := .str "A<b>", date := .str "2024-01-01", rating := 4,
    comment := .str "R&D" }

/-- The list item expected for `specialReview`, character by character. -/
def specialItemHTML : String :=
  "\n        <div class=\"review-item\" data-review-id=\"7\">"
    ++ "\n            <div class=\"review-header\">"
    ++ "\n                <div>"
    ++ "\n                    <div class=\"review-name\">A&lt;b&gt;</div>"
    ++ "\n                    <div class=\"review-date\">2024-01-01</div>"
    ++ "\n                </div>"
    ++ "\n                <div class=\"review-rating\">"
    ++ "<span class=\"star filled\">★</span><span class=\"star filled\">★</span>"
    ++ "<span class=\"star filled\">★</span><span class=\"star filled\">★</span>"
    ++ "<span class=\"star\">☆</span></div>"
    ++ "\n            </div>"
    ++ "\n            <div class=\"review-comment\">R&amp;D</div>"
    ++ "\n        </div>"
    ++ "\n    "

/-- The list item expected for `sampleReview`, character by character. -/
def sampleItemHTML : String :=
  "\n        <div class=\"review-item\" data-review-id=\"1\">"
    ++ "\n            <div class=\"review-header\">"
    ++ "\n                <div>"
    ++ "\n                    <div class=\"review-name\">A</div>"
    ++ "\n                    <div class=\"review-date\">2024-01-01</div>"
    ++ "\n                </div>"
    ++ "\n                <div class=\"review-rating\">"
    ++ "<span class=\"star filled\">★</span><span class=\"star filled\">★</span>"
    ++ "<span class=\"star filled\">★</span><span class=\"star filled\">★</span>"
    ++ "<span class=\"star filled\">★</span></div>"
    ++ "\n            </div>"
    ++ "\n            <div class=\"review-comment\">Great</div>"
    ++ "\n        </div>"
    ++ "\n    "

/-- A document with the "no reviews" placeholder, hidden, and no list container. -/
def Dom.withoutList : Dom :=
  { loadingMessage := none, errorMessage := none,
    noReviews := some { display := "none", content := "Sin reseñas" },
    reviewsList := none, averageRating := none, averageStars := none, totalReviews := none }

/-! ## Properties of `escapeHtml` -/

theorem decodeEntities_plain (c : Char) (rest : List Char) (h : c ≠ '&') :
    decodeEntities (c :: rest) = c :: decodeEntities rest := by
  have h2 : ¬ ('&' = c) := fun e => h e.symm
  rw [decodeEntities]
  simp [List.isPrefixOf, h2]

theorem decodeEntities_escapeChars (cs : List Char) :
    decodeEntities (escapeChars cs) = cs := by
  induction cs with
  | nil => simp [escapeChars, decodeEntities]
  | cons c cs ih =>
    unfold escapeChars escapeChar
    split_ifs with h1 h2 h3 h4 h5
    · subst h1; simp [decodeEntities, List.isPrefixOf, ih]
    · subst h2; simp [decodeEntities, List.isPrefixOf, ih]
    · subst h3; simp [decodeEntities, List.isPrefixOf, ih]
    · subst h4; simp [decodeEntities, List.isPrefixOf, ih]
    · subst h5; simp [decodeEntities, List.isPrefixOf, ih]
    · simp [decodeEntities_plain _ _ h1, ih]

theorem escapeChars_no_raw (cs : List Char) :
    ∀ x ∈ escapeChars cs, x ≠ '<' ∧ x ≠ '>' ∧ x ≠ '"' ∧ x ≠ '\'' := by
  induction cs with
  | nil => simp [escapeChars]
  | cons c cs ih =>
    intro x hx
    rw [escapeChars, List.mem_append] at hx
    rcases hx with hx | hx
    · unfold escapeChar at hx
      split_ifs at hx with h1 h2 h3 h4 h5
      · simp at hx; rcases hx with h | h | h | h | h <;> subst h <;> decide
      · simp at hx; rcases hx with h | h | h | h <;> subst h <;> decide
      · simp at hx; rcases hx with h | h | h | h <;> subst h <;> decide
      · simp at hx; rcases hx with h | h | h | h | h | h <;> subst h <;> decide
      · simp at hx; rcases hx with h | h | h | h | h | h <;> subst h <;> decide
      · simp at hx; subst hx; exact ⟨h2, h3, h4, h5⟩
    · exact ih x hx

theorem amp_only_first (l before after : List Char) (hl : '&' ∉ l)
    (h : '&' :: l = before ++ '&' :: after) : before = [] := by
  cases before with
  | nil => rfl
  | cons b bs =>
    simp only [List.cons_append, List.cons.injEq] at h
    exact absurd (by rw [h.2]; simp) hl

theorem escapeChar_amp (c : Char) (before after : List Char)
    (h : escapeChar c = before ++ '&' :: after) : before = [] ∧ escapeChar c ∈ entities := by
  unfold escapeChar at h ⊢
  split_ifs at h ⊢ with h1 h2 h3 h4 h5
  · exact ⟨amp_only_first _ _ _ (by decide) h, by decide⟩
  · exact ⟨amp_only_first _ _ _ (by decide) h, by decide⟩
  · exact ⟨amp_only_first _ _ _ (by decide) h, by decide⟩
  · exact ⟨amp_only_first _ _ _ (by decide) h, by decide⟩
  · exact ⟨amp_only_first _ _ _ (by decide) h, by decide⟩
  · cases before with
    | nil => simp at h; exact absurd h.1 h1
    | cons b bs => simp at h

theorem escapeChars_amp (cs : List Char) :
    ∀ before after, escapeChars cs = before ++ '&' :: after →
      ∃ entity ∈ entities, entity <+: '&' :: after := by
  induction cs with
  | nil => intro before after h; simp [escapeChars] at h
  | cons c cs ih =>
    intro before after h
    rw [escapeChars, List.append_eq_append_iff] at h
    rcases h with ⟨mid, _, h2⟩ | ⟨mid, h1, h2⟩
    · exact ih mid after h2
    · cases mid with
      | nil => exact ih [] after (by simpa using h2.symm)
      | cons m ms =>
        simp only [List.cons_append, List.cons.injEq] at h2
        obtain ⟨hm, hafter⟩ := h2
        subst hm
        obtain ⟨hb, hent⟩ := escapeChar_amp c before ms h1
        subst hb
        refine ⟨escapeChar c, hent, ?_⟩
        rw [h1, hafter]
        exact ⟨escapeChars cs, by simp⟩

/-- C7. For every string `s`, the text `escapeHtml(s)` has none of the raw
characters `<`, `>`, `"`, `'`; every `&` in it starts one of the five entities
`&amp;` `&lt;` `&gt;` `&quot;` `&#039;`; and decoding the five entities in it
gives `s` back. -/
theorem escapeHtml_roundtrip (s : String) :
    escapeHtml (.str s) = .str (escapeHtmlString s) ∧
    (∀ x ∈ (escapeHtmlString s).data, x ≠ '<' ∧ x ≠ '>' ∧ x ≠ '"' ∧ x ≠ '\'') ∧
    (∀ before after, (escapeHtmlString s).data = before ++ '&' :: after →
      ∃ entity ∈ entities, entity <+: '&' :: after) ∧
    decodeHtmlString (escapeHtmlString s) = s :=
  ⟨rfl, escapeChars_no_raw s.data, escapeChars_amp s.data, by
    simp [decodeHtmlString, escapeHtmlString, decodeEntities_escapeChars]⟩

/-! ## Properties of the star glyphs -/

theorem starLoop_glyphs (body : Int → String) (filled : Int → Bool)
    (h : ∀ i, body i = if filled i then filledStar else emptyStar) :
    starLoop body = glyphsHTML ([1, 2, 3, 4, 5].map filled) := by
  have hb : body = fun i => if filled i then filledStar else emptyStar := funext h
  subst hb
  rfl

theorem generateStarsHTML_glyphs (rating : Int) :
    generateStarsHTML rating =
      glyphsHTML ([1, 2, 3, 4, 5].map (fun i : Int => decide (i ≤ rating))) := by
  apply starLoop_glyphs
  intro i
  by_cases h : i ≤ rating <;> simp [h]

theorem jsRemOne_nonneg (x : ℚ) (h : 0 ≤ x) : jsRemOne x = Int.fract x := by
  simp [jsRemOne, h]

theorem averageStarsHTML_glyphs (average : ℚ) (h0 : 0 ≤ average) :
    averageStarsHTML average = glyphsHTML ([1, 2, 3, 4, 5].map (fun i : Int =>
      decide (i ≤ ⌊average⌋ ∨ (i = ⌊average⌋ + 1 ∧ 1 / 2 ≤ Int.fract average)))) := by
  apply starLoop_glyphs
  intro i
  rw [jsRemOne_nonneg average h0]
  by_cases h : i ≤ ⌊average⌋
  · simp [h]
  · by_cases h2 : i = ⌊average⌋ + 1 ∧ 1 / 2 ≤ Int.fract average
    · simp [h, h2]
    · simp only [h, h2, false_or, decide_False, if_false]
      simp
      intro h3 h4
      exact absurd ⟨h3, by simpa using h4⟩ h2

theorem glyphsHTML_data_cons (f : Bool) (fs : List Bool) :
    (glyphsHTML (f :: fs)).data =
      (if f then filledStar else emptyStar).data ++ (glyphsHTML fs).data := by
  simp [glyphsHTML, String.join_eq]

theorem glyphsHTML_data_nil : (glyphsHTML []).data = [] := by
  simp [glyphsHTML, String.join_eq]

theorem filledStar_data : filledStar.data = '<' :: 's' :: 'p' :: 'a' :: 'n' :: ' ' :: 'c' :: 'l' :: 'a'
    :: 's' :: 's' :: '=' :: '"' :: 's' :: 't' :: 'a' :: 'r' :: ' ' :: "filled\">★</span>".data := by
  decide

theorem emptyStar_data : emptyStar.data = '<' :: 's' :: 'p' :: 'a' :: 'n' :: ' ' :: 'c' :: 'l' :: 'a'
    :: 's' :: 's' :: '=' :: '"' :: 's' :: 't' :: 'a' :: 'r' :: '"' :: ">☆</span>".data := by
  decide

/-- A markup of star glyphs has one reading as a glyph sequence. -/
theorem glyphsHTML_injective : Function.Injective glyphsHTML := by
  intro a
  induction a with
  | nil =>
    intro b h
    cases b with
    | nil => rfl
    | cons g gs =>
      have h2 := congrArg String.data h
      rw [glyphsHTML_data_nil, glyphsHTML_data_cons] at h2
      cases g <;> simp [filledStar_data, emptyStar_data] at h2
  | cons f fs ih =>
    intro b h
    cases b with
    | nil =>
      have h2 := congrArg String.data h
      rw [glyphsHTML_data_nil, glyphsHTML_data_cons] at h2
      cases f <;> simp [filledStar_data, emptyStar_data] at h2
    | cons g gs =>
      have h2 := congrArg String.data h
      rw [glyphsHTML_data_cons, glyphsHTML_data_cons] at h2
      cases f <;> cases g
      · simp only [Bool.false_eq_true, if_false] at h2
        have h3 := List.append_cancel_left h2
        rw [ih (String.ext h3)]
      · simp [filledStar_data, emptyStar_data] at h2
      · simp [filledStar_data, emptyStar_data] at h2
      · simp only [if_true] at h2
        have h3 := List.append_cancel_left h2
        rw [ih (String.ext h3)]

/-- C8. For an integer rating from 1 to 5, `generateStarsHTML(rating)` is the
markup of exactly five glyphs, `rating` filled ones followed by `5 - rating`
empty ones: glyph `i` is filled iff `i <= rating`, and no other glyph sequence
has this markup. -/
theorem generateStarsHTML_spec (rating : Int) (h1 : 1 ≤ rating) (h5 : rating ≤ 5) :
    generateStarsHTML rating = glyphsHTML (filledThenEmpty rating.toNat) ∧
    (filledThenEmpty rating.toNat).length = 5 ∧
    filledThenEmpty rating.toNat = [1, 2, 3, 4, 5].map (fun i : Int => decide (i ≤ rating)) ∧
    (∀ glyphs, generateStarsHTML rating = glyphsHTML glyphs →
      glyphs = filledThenEmpty rating.toNat) := by
  have hlist : filledThenEmpty rating.toNat =
      [1, 2, 3, 4, 5].map (fun i : Int => decide (i ≤ rating)) := by
    interval_cases rating <;> decide
  have hgen : generateStarsHTML rating = glyphsHTML (filledThenEmpty rating.toNat) := by
    rw [hlist]; exact generateStarsHTML_glyphs rating
  refine ⟨hgen, ?_, hlist, ?_⟩
  · rw [hlist]; rfl
  · intro glyphs hg
    exact (glyphsHTML_injective (hgen.symm.trans hg)).symm

/-- Witness of C8 at the rating 3: three filled glyphs, then two empty ones. -/
theorem generateStarsHTML_spec_witness :
    (1 : Int) ≤ 3 ∧ (3 : Int) ≤ 5 ∧
    generateStarsHTML 3 = glyphsHTML [true, true, true, false, false] :=
  ⟨by decide, by decide, (generateStarsHTML_spec 3 (by decide) (by decide)).1⟩

/-- C9. For an average from 0 to 5, taken as an exact rational, the stars that
`updateRatingSummary` renders are the markup of exactly five glyphs, glyph `i`
(counted from 1) being filled iff `i <= floor(average)`, or `i = floor(average) + 1`
and the fractional part of the average is at least one half; the average 3.5 gives
four filled glyphs and one empty, the average 3.4 three filled and two empty. -/
theorem averageStars_spec (average : ℚ) (h0 : 0 ≤ average) (_h5 : average ≤ 5) :
    (averageStarsHTML average = glyphsHTML ([1, 2, 3, 4, 5].map (fun i : Int =>
        decide (i ≤ ⌊average⌋ ∨ (i = ⌊average⌋ + 1 ∧ 1 / 2 ≤ Int.fract average))))) ∧
    (∀ (dom : Dom) (total : Int),
      (updateRatingSummaryDom dom (some { average := average, total := total })).averageStars =
        setContent (glyphsHTML ([1, 2, 3, 4, 5].map (fun i : Int =>
          decide (i ≤ ⌊average⌋ ∨ (i = ⌊average⌋ + 1 ∧ 1 / 2 ≤ Int.fract average)))))
          dom.averageStars) ∧
    averageStarsHTML (7 / 2) = glyphsHTML [true, true, true, true, false] ∧
    averageStarsHTML (17 / 5) = glyphsHTML [true, true, true, false, false] := by
  have hmain := averageStarsHTML_glyphs average h0
  refine ⟨hmain, ?_, ?_, ?_⟩
  · intro dom total
    simp only [updateRatingSummaryDom, Option.getD_some]
    rw [hmain]
  · have hf : ⌊(7 / 2 : ℚ)⌋ = 3 := by rw [Int.floor_eq_iff]; norm_num
    rw [averageStarsHTML_glyphs _ (by norm_num)]
    have hfr : Int.fract (7 / 2 : ℚ) = 1 / 2 := by rw [Int.fract, hf]; norm_num
    rw [hf, hfr]
    have hle : (1 / 2 : ℚ) ≤ 1 / 2 := le_refl _
    simp only [hle, and_true]
    decide
  · have hf : ⌊(17 / 5 : ℚ)⌋ = 3 := by rw [Int.floor_eq_iff]; norm_num
    rw [averageStarsHTML_glyphs _ (by norm_num)]
    have hfr : Int.fract (17 / 5 : ℚ) = 2 / 5 := by rw [Int.fract, hf]; norm_num
    rw [hf, hfr]
    have hlt : ¬ ((1 / 2 : ℚ) ≤ 2 / 5) := by norm_num
    simp only [hlt, and_false, or_false]
    decide

/-- Witness of C9 at the average 4.5: five filled glyphs. -/
theorem averageStars_spec_witness :
    (0 : ℚ) ≤ 9 / 2 ∧ (9 / 2 : ℚ) ≤ 5 ∧
    averageStarsHTML (9 / 2) = glyphsHTML ([1, 2, 3, 4, 5].map (fun i : Int =>
      decide (i ≤ ⌊(9 / 2 : ℚ)⌋ ∨ (i = ⌊(9 / 2 : ℚ)⌋ + 1 ∧ 1 / 2 ≤ Int.fract (9 / 2 : ℚ))))) :=
  ⟨by norm_num, by norm_num, (averageStars_spec (9 / 2) (by norm_num) (by norm_num)).1⟩

/-! ## Properties of the review list renderer -/

theorem createReviewHTML_parts (r : Review) :
    OccursIn ("data-review-id=\"" ++ r.id.toJsString ++ "\"") (createReviewHTML r) ∧
    OccursIn ("<div class=\"review-name\">" ++ (escapeHtml r.name).toJsString ++ "</div>")
      (createReviewHTML r) ∧
    OccursIn ("<div class=\"review-rating\">" ++ generateStarsHTML r.rating ++ "</div>")
      (createReviewHTML r) ∧
    OccursIn ("<div class=\"review-comment\">" ++ (escapeHtml r.comment).toJsString ++ "</div>")
      (createReviewHTML r) := by
  refine ⟨?_, ?_, ?_, ?_⟩
  · refine ⟨"\n        <div class=\"review-item\" ",
      ">" ++ "\n            <div class=\"review-header\">"
        ++ "\n                <div>"
        ++ "\n                    <div class=\"review-name\">" ++ (escapeHtml r.name).toJsString
        ++ "</div>"
        ++ "\n                    <div class=\"review-date\">" ++ r.date.toJsString ++ "</div>"
        ++ "\n                </div>"
        ++ "\n                <div class=\"review-rating\">" ++ generateStarsHTML r.rating
        ++ "</div>"
        ++ "\n            </div>"
        ++ "\n            <div class=\"review-comment\">" ++ (escapeHtml r.comment).toJsString
        ++ "</div>"
        ++ "\n        </div>"
        ++ "\n    ", ?_⟩
    simp only [createReviewHTML, String.append_assoc]
    rfl
  · refine ⟨"\n        <div class=\"review-item\" data-review-id=\"" ++ r.id.toJsString ++ "\">"
        ++ "\n            <div class=\"review-header\">"
        ++ "\n                <div>"
        ++ "\n                    ",
      "\n                    <div class=\"review-date\">" ++ r.date.toJsString ++ "</div>"
        ++ "\n                </div>"
        ++ "\n                <div class=\"review-rating\">" ++ generateStarsHTML r.rating
        ++ "</div>"
        ++ "\n            </div>"
        ++ "\n            <div class=\"review-comment\">" ++ (escapeHtml r.comment).toJsString
        ++ "</div>"
        ++ "\n        </div>"
        ++ "\n    ", ?_⟩
    simp only [createReviewHTML, String.append_assoc]
    rfl
  · refine ⟨"\n        <div class=\"review-item\" data-review-id=\"" ++ r.id.toJsString ++ "\">"
        ++ "\n            <div class=\"review-header\">"
        ++ "\n                <div>"
        ++ "\n                    <div class=\"review-name\">" ++ (escapeHtml r.name).toJsString
        ++ "</div>"
        ++ "\n                    <div class=\"review-date\">" ++ r.date.toJsString ++ "</div>"
        ++ "\n                </div>"
        ++ "\n                ",
      "\n            </div>"
        ++ "\n            <div class=\"review-comment\">" ++ (escapeHtml r.comment).toJsString
        ++ "</div>"
        ++ "\n        </div>"
        ++ "\n    ", ?_⟩
    simp only [createReviewHTML, String.append_assoc]
    rfl
  · refine ⟨"\n        <div class=\"review-item\" data-review-id=\"" ++ r.id.toJsString ++ "\">"
        ++ "\n            <div class=\"review-header\">"
        ++ "\n                <div>"
        ++ "\n                    <div class=\"review-name\">" ++ (escapeHtml r.name).toJsString
        ++ "</div>"
        ++ "\n                    <div class=\"review-date\">" ++ r.date.toJsString ++ "</div>"
        ++ "\n                </div>"
        ++ "\n                <div class=\"review-rating\">" ++ generateStarsHTML r.rating
        ++ "</div>"
        ++ "\n            </div>"
        ++ "\n            ",
      "\n        </div>" ++ "\n    ", ?_⟩
    simp only [createReviewHTML, String.append_assoc]
    rfl

/-- The list item of a review whose id, name, date and comment are strings. -/
theorem createReviewHTML_strings (key name date comment : String) (rating : Int) :
    createReviewHTML
        { id := .str key, name := .str name, date := .str date, rating := rating,
          comment := .str comment } =
      "\n        <div class=\"review-item\" data-review-id=\"" ++ key ++ "\">"
        ++ "\n            <div class=\"review-header\">"
        ++ "\n                <div>"
        ++ "\n                    <div class=\"review-name\">" ++ escapeHtmlString name ++ "</div>"
        ++ "\n                    <div class=\"review-date\">" ++ date ++ "</div>"
        ++ "\n                </div>"
        ++ "\n                <div class=\"review-rating\">" ++ generateStarsHTML rating ++ "</div>"
        ++ "\n            </div>"
        ++ "\n            <div class=\"review-comment\">" ++ escapeHtmlString comment ++ "</div>"
        ++ "\n        </div>"
        ++ "\n    " :=
  rfl

/-- The list item of a review whose id is a number. -/
theorem createReviewHTML_number (key : Int) (name date comment : String) (rating : Int) :
    createReviewHTML
        { id := .num key, name := .str name, date := .str date, rating := rating,
          comment := .str comment } =
      "\n        <div class=\"review-item\" data-review-id=\"" ++ intToString key ++ "\">"
        ++ "\n            <div class=\"review-header\">"
        ++ "\n                <div>"
        ++ "\n                    <div class=\"review-name\">" ++ escapeHtmlString name ++ "</div>"
        ++ "\n                    <div class=\"review-date\">" ++ date ++ "</div>"
        ++ "\n                </div>"
        ++ "\n                <div class=\"review-rating\">" ++ generateStarsHTML rating ++ "</div>"
        ++ "\n            </div>"
        ++ "\n            <div class=\"review-comment\">" ++ escapeHtmlString comment ++ "</div>"
        ++ "\n        </div>"
        ++ "\n    " :=
  rfl

set_option maxRecDepth 100000 in
theorem createReviewHTML_special : createReviewHTML specialReview = specialItemHTML := by
  decide

set_option maxRecDepth 100000 in
theorem createReviewHTML_sample : createReviewHTML sampleReview = sampleItemHTML := by
  decide

/-- Without the list container `displayReviews` returns at once. -/
theorem displayReviews_no_list (s : State) (reviews : List Review)
    (h : s.dom.reviewsList = none) : (displayReviews s reviews).dom = s.dom := by
  simp [displayReviews, displayReviewsDom, h]

/-- C10, as the code has it. On a page that has the list container,
`displayReviews` gives: for the empty sequence, an empty list and the "no
reviews" placeholder shown; otherwise the placeholder hidden and the list made
of one item per review, in the given order, each item carrying the review's id
as its key, `escapeHtml(name)` and `escapeHtml(comment)` in place of the raw name
and comment, and `generateStarsHTML(rating)`. The item is given in full for
reviews with string fields and for a numeric id, and character by character for
two reviews. On a page without the list container `displayReviews` changes
nothing of the page, so the placeholder is not shown there. -/
theorem displayReviews_spec (s : State) (reviews : List Review) (list : Element)
    (hlist : s.dom.reviewsList = some list) :
    (reviews = [] →
      (displayReviews s reviews).dom.reviewsList = some { list with content := "" } ∧
      (displayReviews s reviews).dom.noReviews = setDisplay "block" s.dom.noReviews) ∧
    (reviews ≠ [] →
      (displayReviews s reviews).dom.reviewsList =
        some { list with content := String.join (reviews.map createReviewHTML) } ∧
      (displayReviews s reviews).dom.noReviews = setDisplay "none" s.dom.noReviews) ∧
    (∀ r ∈ reviews,
      OccursIn ("data-review-id=\"" ++ r.id.toJsString ++ "\"") (createReviewHTML r) ∧
      OccursIn ("<div class=\"review-name\">" ++ (escapeHtml r.name).toJsString ++ "</div>")
        (createReviewHTML r) ∧
      OccursIn ("<div class=\"review-rating\">" ++ generateStarsHTML r.rating ++ "</div>")
        (createReviewHTML r) ∧
      OccursIn ("<div class=\"review-comment\">" ++ (escapeHtml r.comment).toJsString ++ "</div>")
        (createReviewHTML r)) ∧
    (∀ (key name date comment : String) (rating : Int),
      createReviewHTML
          { id := .str key, name := .str name, date := .str date, rating := rating,
            comment := .str comment } =
        "\n        <div class=\"review-item\" data-review-id=\"" ++ key ++ "\">"
          ++ "\n            <div class=\"review-header\">"
          ++ "\n                <div>"
          ++ "\n                    <div class=\"review-name\">" ++ escapeHtmlString name
          ++ "</div>"
          ++ "\n                    <div class=\"review-date\">" ++ date ++ "</div>"
          ++ "\n                </div>"
          ++ "\n                <div class=\"review-rating\">" ++ generateStarsHTML rating
          ++ "</div>"
          ++ "\n            </div>"
          ++ "\n            <div class=\"review-comment\">" ++ escapeHtmlString comment
          ++ "</div>"
          ++ "\n        </div>"
          ++ "\n    ") ∧
    (∀ (key : Int) (name date comment : String) (rating : Int),
      createReviewHTML
          { id := .num key, name := .str name, date := .str date, rating := rating,
            comment := .str comment } =
        "\n        <div class=\"review-item\" data-review-id=\"" ++ intToString key ++ "\">"
          ++ "\n            <div class=\"review-header\">"
          ++ "\n                <div>"
          ++ "\n                    <div class=\"review-name\">" ++ escapeHtmlString name
          ++ "</div>"
          ++ "\n                    <div class=\"review-date\">" ++ date ++ "</div>"
          ++ "\n                </div>"
          ++ "\n                <div class=\"review-rating\">" ++ generateStarsHTML rating
          ++ "</div>"
          ++ "\n            </div>"
          ++ "\n            <div class=\"review-comment\">" ++ escapeHtmlString comment
          ++ "</div>"
          ++ "\n        </div>"
          ++ "\n    ") ∧
    createReviewHTML specialReview = specialItemHTML ∧
    createReviewHTML sampleReview = sampleItemHTML ∧
    (displayReviews (State.initial Dom.full) [specialReview, sampleReview]).dom.reviewsList =
      some { display := "", content := specialItemHTML ++ sampleItemHTML } ∧
    (displayReviews (State.initial Dom.full) [specialReview, sampleReview]).dom.noReviews =
      some { display := "none", content := "" } ∧
    (displayReviews (State.initial Dom.full) []).dom.reviewsList =
      some { display := "", content := "" } ∧
    (displayReviews (State.initial Dom.full) []).dom.noReviews =
      some { display := "block", content := "" } ∧
    (∀ (s0 : State) (reviews0 : List Review), s0.dom.reviewsList = none →
      (displayReviews s0 reviews0).dom = s0.dom) ∧
    (displayReviews s reviews).calls = s.calls ++ [Call.displayReviews reviews] ∧
    (displayReviews s reviews).reviewsData = s.reviewsData ∧
    (displayReviews s reviews).lastUpdateTime = s.lastUpdateTime := by
  refine ⟨?_, ?_, fun r _ => createReviewHTML_parts r, createReviewHTML_strings,
    createReviewHTML_number, createReviewHTML_special, createReviewHTML_sample,
    ?_, ?_, ?_, ?_, displayReviews_no_list, rfl, rfl, rfl⟩
  · intro h
    subst h
    simp [displayReviews, displayReviewsDom, hlist, setContent]
  · intro h
    have hlen : reviews.length ≠ 0 := by
      intro h0
      exact h (List.length_eq_zero.mp h0)
    simp [displayReviews, displayReviewsDom, hlist, setContent, hlen]
  · have hjoin : String.join ([specialReview, sampleReview].map createReviewHTML) =
        specialItemHTML ++ sampleItemHTML := by
      simp only [List.map, createReviewHTML_special, createReviewHTML_sample]
      rfl
    simp only [displayReviews, displayReviewsDom, State.initial, Dom.full, List.length_cons,
      List.length_nil, setContent, Option.map_some', hjoin]
    rfl
  · rfl
  · rfl
  · rfl

/-- Witness of C10: a page with every target and two reviews, the first with
special characters in its name and comment. -/
theorem displayReviews_spec_witness :
    (State.initial Dom.full).dom.reviewsList = some { display := "", content := "" } ∧
    ([specialReview, sampleReview] ≠ []) ∧
    (displayReviews (State.initial Dom.full) [specialReview, sampleReview]).dom.reviewsList =
      some { display := "", content :=
        String.join ([specialReview, sampleReview].map createReviewHTML) } ∧
    (displayReviews (State.initial Dom.full) [specialReview, sampleReview]).dom.noReviews =
      setDisplay "none" (State.initial Dom.full).dom.noReviews :=
  ⟨rfl, by decide,
    (displayReviews_spec (State.initial Dom.full) [specialReview, sampleReview]
      { display := "", content := "" } rfl).2.1 (by decide)⟩

/-- Counterexample to C10 as stated: the page has the placeholder, hidden, and no
list container; for the empty sequence `displayReviews` returns before it reaches
the placeholder, which stays hidden, and there is no list. -/
theorem no_list_placeholder_stays_hidden :
    (displayReviews (State.initial Dom.withoutList) []).dom.noReviews =
      some { display := "none", content := "Sin reseñas" } ∧
    (displayReviews (State.initial Dom.withoutList) []).dom.reviewsList = none ∧
    (displayReviews (State.initial Dom.withoutList) []).calls = [Call.displayReviews []] := by
  decide

/-! ## Properties of the fetch step -/

/-- C4, as the code has it. The fetch step yields the data of the primary
transport and does not start the fallback when the primary returns a success
status with a body that parses; it starts the fallback exactly when the primary
throws, returns a non-success status, or returns a success status with a body
that does not parse, and then yields what the fallback resolves with; it fails
only if the primary fails and the fallback rejects, with the message of the
fallback, whatever the primary failure was. -/
theorem fetchData_spec (primary : PrimaryOutcome) (fallback : JsonpResult) :
    (∀ data, primary.delivers = some data →
      (fetchData primary fallback).result = .ok data ∧
      (fetchData primary fallback).fallbackStarted = false) ∧
    ((fetchData primary fallback).fallbackStarted = true ↔ primary.delivers = none) ∧
    (primary.delivers = none ↔
      (∃ message, primary = .rejected message) ∨
      (∃ status json, primary = .response false status json) ∨
      (∃ status message, primary = .response true status (.error message))) ∧
    (∀ data, primary.delivers = none → fallback = .resolved data →
      (fetchData primary fallback).result = .ok data) ∧
    (∀ message, (fetchData primary fallback).result = .error message →
      primary.delivers = none ∧ fallback = .rejected message) ∧
    (∀ other : PrimaryOutcome, primary.delivers = none → other.delivers = none →
      (fetchData other fallback).result = (fetchData primary fallback).result) := by
  refine ⟨?_, ?_, ?_, ?_, ?_, ?_⟩
  · intro data h
    rcases primary with m | ⟨ok, status, json⟩
    · simp [PrimaryOutcome.delivers] at h
    · cases ok <;> cases json <;> simp_all [PrimaryOutcome.delivers, fetchData]
  · rcases primary with m | ⟨ok, status, json⟩
    · cases fallback <;> simp [PrimaryOutcome.delivers, fetchData]
    · cases ok <;> cases json <;> cases fallback <;> simp [PrimaryOutcome.delivers, fetchData]
  · rcases primary with m | ⟨ok, status, json⟩
    · simp [PrimaryOutcome.delivers]
    · cases ok <;> cases json <;> simp [PrimaryOutcome.delivers]
  · intro data h hf
    subst hf
    rcases primary with m | ⟨ok, status, json⟩
    · simp [fetchData]
    · cases ok <;> cases json <;> simp_all [PrimaryOutcome.delivers, fetchData]
  · intro message h
    rcases primary with m | ⟨ok, status, json⟩
    · cases fallback <;> simp_all [PrimaryOutcome.delivers, fetchData]
    · cases ok <;> cases json <;> cases fallback <;>
        simp_all [PrimaryOutcome.delivers, fetchData]
  · intro other h1 h2
    rcases primary with m | ⟨ok, status, json⟩ <;> rcases other with m2 | ⟨ok2, status2, json2⟩
    · cases fallback <;> simp [fetchData]
    · cases ok2 <;> cases json2 <;> cases fallback <;>
        simp_all [PrimaryOutcome.delivers, fetchData]
    · cases ok <;> cases json <;> cases fallback <;>
        simp_all [PrimaryOutcome.delivers, fetchData]
    · cases ok <;> cases json <;> cases ok2 <;> cases json2 <;> cases fallback <;>
        simp_all [PrimaryOutcome.delivers, fetchData]

/-- Witness of C4: the primary answers HTTP 500 and the fallback resolves. -/
theorem fetchData_spec_witness :
    (PrimaryOutcome.response false 500 (.error "no body")).delivers = none ∧
    (fetchData (.response false 500 (.error "no body"))
      (.resolved (.envelope emptyErrorEnvelope))).result = .ok (.envelope emptyErrorEnvelope) :=
  ⟨rfl, (fetchData_spec (.response false 500 (.error "no body"))
    (.resolved (.envelope emptyErrorEnvelope))).2.2.2.1 _ rfl rfl⟩

/-- Counterexample to C4 as stated: the primary returns a success status (200)
with a body that is not JSON, and the fallback is started all the same. -/
theorem fetchData_success_status_starts_fallback :
    (fetchData (.response true 200 (.error "Unexpected token < in JSON"))
        (.resolved (.envelope emptyErrorEnvelope))).fallbackStarted = true ∧
    (fetchData (.response true 200 (.error "Unexpected token < in JSON"))
        (.resolved (.envelope emptyErrorEnvelope))).result = .ok (.envelope emptyErrorEnvelope) :=
  ⟨rfl, rfl⟩

/-! ## The three ways a refresh cycle ends -/

theorem setDisplay_setDisplay (a b : String) (el : Option Element) :
    setDisplay a (setDisplay b el) = setDisplay a el := by
  cases el <;> rfl

theorem setContent_setContent (a b : String) (el : Option Element) :
    setContent a (setContent b el) = setContent a el := by
  cases el <;> rfl

theorem beginCycle_fields (s : State) (showLoading : Bool) :
    (beginCycle s showLoading).reviewsData = s.reviewsData ∧
    (beginCycle s showLoading).lastUpdateTime = s.lastUpdateTime ∧
    (beginCycle s showLoading).calls = s.calls ∧
    (beginCycle s showLoading).dom.errorMessage = setDisplay "none" s.dom.errorMessage ∧
    (beginCycle s showLoading).dom.noReviews = s.dom.noReviews ∧
    (beginCycle s showLoading).dom.reviewsList = s.dom.reviewsList ∧
    (beginCycle s showLoading).dom.averageRating = s.dom.averageRating ∧
    (beginCycle s showLoading).dom.totalReviews = s.dom.totalReviews ∧
    (beginCycle s showLoading).dom.averageStars = s.dom.averageStars := by
  cases showLoading <;> simp [beginCycle]

theorem afterFetch_fields (s : State) (fetched : FetchResult) :
    (afterFetch s fetched).reviewsData = s.reviewsData ∧
    (afterFetch s fetched).lastUpdateTime = s.lastUpdateTime ∧
    (afterFetch s fetched).dom = s.dom ∧
    (afterFetch s fetched).calls =
      s.calls ++ (if fetched.fallbackStarted then [Call.loadWithJSONP] else []) := by
  unfold afterFetch
  split <;> simp

/-- The state at the point where the fetched data is examined. -/
theorem fetched_state_fields (s : State) (showLoading : Bool) (fetched : FetchResult) :
    (afterFetch (beginCycle s showLoading) fetched).reviewsData = s.reviewsData ∧
    (afterFetch (beginCycle s showLoading) fetched).lastUpdateTime = s.lastUpdateTime ∧
    (afterFetch (beginCycle s showLoading) fetched).calls =
      s.calls ++ (if fetched.fallbackStarted then [Call.loadWithJSONP] else []) ∧
    (afterFetch (beginCycle s showLoading) fetched).dom.errorMessage =
      setDisplay "none" s.dom.errorMessage ∧
    (afterFetch (beginCycle s showLoading) fetched).dom.noReviews = s.dom.noReviews ∧
    (afterFetch (beginCycle s showLoading) fetched).dom.reviewsList = s.dom.reviewsList ∧
    (afterFetch (beginCycle s showLoading) fetched).dom.averageRating = s.dom.averageRating ∧
    (afterFetch (beginCycle s showLoading) fetched).dom.totalReviews = s.dom.totalReviews ∧
    (afterFetch (beginCycle s showLoading) fetched).dom.averageStars = s.dom.averageStars := by
  obtain ⟨a1, a2, a3, a4⟩ := afterFetch_fields (beginCycle s showLoading) fetched
  obtain ⟨b1, b2, b3, b4, b5, b6, b7, b8, b9⟩ := beginCycle_fields s showLoading
  rw [a1, a2, a3, a4, b1, b2, b3, b4, b5, b6, b7, b8, b9]
  simp

/-- A cycle whose envelope has a truthy `error` ends in the `catch` block. -/
theorem load_error_envelope (s : State) (showLoading : Bool) (primary : PrimaryOutcome)
    (fallback : JsonpResult) (e : Envelope)
    (hfetch : (fetchData primary fallback).result = .ok (.envelope e))
    (herr : e.hasError = true) :
    loadReviewsFromSheets s showLoading primary fallback =
      hideLoading (handleLoadError
        (afterFetch (beginCycle s showLoading) (fetchData primary fallback))
        (e.error.getD "")) := by
  simp [loadReviewsFromSheets, tryBlock, hfetch, herr]

/-- A cycle whose fetch step fails ends in the `catch` block. -/
theorem load_fetch_failed (s : State) (showLoading : Bool) (primary : PrimaryOutcome)
    (fallback : JsonpResult) (message : String)
    (hfetch : (fetchData primary fallback).result = .error message) :
    loadReviewsFromSheets s showLoading primary fallback =
      hideLoading (handleLoadError
        (afterFetch (beginCycle s showLoading) (fetchData primary fallback)) message) := by
  simp [loadReviewsFromSheets, tryBlock, hfetch]

/-- A cycle whose data is `null` or `undefined` ends in the `catch` block. -/
theorem load_nullish (s : State) (showLoading : Bool) (primary : PrimaryOutcome)
    (fallback : JsonpResult) (message : String)
    (hfetch : (fetchData primary fallback).result = .ok (.nullish message)) :
    loadReviewsFromSheets s showLoading primary fallback =
      hideLoading (handleLoadError
        (afterFetch (beginCycle s showLoading) (fetchData primary fallback)) message) := by
  simp [loadReviewsFromSheets, tryBlock, hfetch]

/-- A cycle whose envelope has the cached token, the cache having reviews, returns early. -/
theorem load_unchanged (s : State) (showLoading : Bool) (primary : PrimaryOutcome)
    (fallback : JsonpResult) (e : Envelope)
    (hfetch : (fetchData primary fallback).result = .ok (.envelope e))
    (herr : e.hasError = false)
    (htoken : s.lastUpdateTime = e.lastUpdated) (hcache : s.reviewsData ≠ []) :
    loadReviewsFromSheets s showLoading primary fallback =
      hideLoading (hideLoading
        (afterFetch (beginCycle s showLoading) (fetchData primary fallback))) := by
  obtain ⟨h1, h2, -⟩ := fetched_state_fields s showLoading (fetchData primary fallback)
  have hlen : 0 < s.reviewsData.length := List.length_pos.mpr hcache
  simp [loadReviewsFromSheets, tryBlock, hfetch, herr, h1, h2, htoken, hlen]

/-- A cycle whose envelope has a new token, or that finds the cache empty,
replaces the cache and calls the two renderers. -/
theorem load_changed (s : State) (showLoading : Bool) (primary : PrimaryOutcome)
    (fallback : JsonpResult) (e : Envelope)
    (hfetch : (fetchData primary fallback).result = .ok (.envelope e))
    (herr : e.hasError = false)
    (hnew : s.lastUpdateTime ≠ e.lastUpdated ∨ s.reviewsData = []) :
    loadReviewsFromSheets s showLoading primary fallback =
      hideLoading (displayReviews
        (updateRatingSummary
          { afterFetch (beginCycle s showLoading) (fetchData primary fallback) with
            reviewsData := e.reviews.getD [], lastUpdateTime := e.lastUpdated }
          e.summary)
        (e.reviews.getD [])) := by
  obtain ⟨h1, h2, -⟩ := fetched_state_fields s showLoading (fetchData primary fallback)
  have hcond : ¬ (s.lastUpdateTime = e.lastUpdated ∧ 0 < s.reviewsData.length) := by
    rintro ⟨ht, hl⟩
    rcases hnew with h | h
    · exact h ht
    · rw [h] at hl; simp at hl
  simp only [loadReviewsFromSheets, tryBlock, hfetch, herr, h1, h2]
  simp [hcond, updateRatingSummary]

/-! ## What each ending leaves behind -/

/-- The state after the `catch` block and the `finally` block. -/
theorem handled_fields (s : State) (message : String) :
    (hideLoading (handleLoadError s message)).reviewsData = s.reviewsData ∧
    (hideLoading (handleLoadError s message)).lastUpdateTime = s.lastUpdateTime ∧
    (hideLoading (handleLoadError s message)).calls = s.calls ++ [Call.handleLoadError message] ∧
    (hideLoading (handleLoadError s message)).dom.errorMessage =
      setContent (errorHTML message) (setDisplay "block" s.dom.errorMessage) ∧
    (hideLoading (handleLoadError s message)).dom.reviewsList = s.dom.reviewsList ∧
    (hideLoading (handleLoadError s message)).dom.averageRating = s.dom.averageRating ∧
    (hideLoading (handleLoadError s message)).dom.totalReviews = s.dom.totalReviews ∧
    (hideLoading (handleLoadError s message)).dom.averageStars = s.dom.averageStars ∧
    (hideLoading (handleLoadError s message)).dom.loadingMessage =
      setDisplay "none" s.dom.loadingMessage ∧
    (hideLoading (handleLoadError s message)).dom.noReviews =
      (if s.reviewsData.length = 0 then setDisplay "block" s.dom.noReviews
       else s.dom.noReviews) := by
  unfold hideLoading handleLoadError
  by_cases h : s.reviewsData.length = 0 <;> simp [h]

theorem displayReviewsDom_fields (dom : Dom) (reviews : List Review) :
    (displayReviewsDom dom reviews).reviewsList =
      setContent (String.join (reviews.map createReviewHTML)) dom.reviewsList ∧
    (displayReviewsDom dom reviews).averageRating = dom.averageRating ∧
    (displayReviewsDom dom reviews).totalReviews = dom.totalReviews ∧
    (displayReviewsDom dom reviews).averageStars = dom.averageStars ∧
    (displayReviewsDom dom reviews).errorMessage = dom.errorMessage ∧
    (displayReviewsDom dom reviews).loadingMessage = dom.loadingMessage := by
  unfold displayReviewsDom
  cases hl : dom.reviewsList with
  | none => simp [hl, setContent]
  | some el =>
    cases reviews with
    | nil => simp [setContent, String.join]
    | cons r rs => simp [setContent]

/-- The state after the two renderers and the `finally` block. -/
theorem rendered_fields (s : State) (summary : Option Summary) (reviews : List Review) :
    (hideLoading (displayReviews (updateRatingSummary s summary) reviews)).reviewsData =
      s.reviewsData ∧
    (hideLoading (displayReviews (updateRatingSummary s summary) reviews)).lastUpdateTime =
      s.lastUpdateTime ∧
    (hideLoading (displayReviews (updateRatingSummary s summary) reviews)).calls =
      s.calls ++ [Call.updateRatingSummary summary, Call.displayReviews reviews] ∧
    (hideLoading (displayReviews (updateRatingSummary s summary) reviews)).dom.reviewsList =
      setContent (String.join (reviews.map createReviewHTML)) s.dom.reviewsList ∧
    (hideLoading (displayReviews (updateRatingSummary s summary) reviews)).dom.averageRating =
      setContent (toFixed1 (summary.getD defaultSummary).average) s.dom.averageRating ∧
    (hideLoading (displayReviews (updateRatingSummary s summary) reviews)).dom.totalReviews =
      setContent (intToString (summary.getD defaultSummary).total) s.dom.totalReviews ∧
    (hideLoading (displayReviews (updateRatingSummary s summary) reviews)).dom.averageStars =
      setContent (averageStarsHTML (summary.getD defaultSummary).average) s.dom.averageStars ∧
    (hideLoading (displayReviews (updateRatingSummary s summary) reviews)).dom.errorMessage =
      s.dom.errorMessage := by
  obtain ⟨d1, d2, d3, d4, d5, -⟩ :=
    displayReviewsDom_fields (updateRatingSummary s summary).dom reviews
  simp only [hideLoading, displayReviews]
  rw [d1, d2, d3, d4, d5]
  simp [updateRatingSummary, updateRatingSummaryDom]

/-- The state after an early return and the `finally` block. -/
theorem skipped_fields (s : State) :
    (hideLoading (hideLoading s)).reviewsData = s.reviewsData ∧
    (hideLoading (hideLoading s)).lastUpdateTime = s.lastUpdateTime ∧
    (hideLoading (hideLoading s)).calls = s.calls ∧
    (hideLoading (hideLoading s)).dom.reviewsList = s.dom.reviewsList ∧
    (hideLoading (hideLoading s)).dom.averageRating = s.dom.averageRating ∧
    (hideLoading (hideLoading s)).dom.totalReviews = s.dom.totalReviews ∧
    (hideLoading (hideLoading s)).dom.averageStars = s.dom.averageStars ∧
    (hideLoading (hideLoading s)).dom.errorMessage = s.dom.errorMessage ∧
    (hideLoading (hideLoading s)).dom.noReviews = s.dom.noReviews := by
  simp [hideLoading]

theorem hasError_of_nonempty (e : Envelope) (message : String)
    (herr : e.error = some message) (hne : message ≠ "") :
    e.hasError = true ∧ e.error.getD "" = message := by
  simp [Envelope.hasError, herr, hne]

theorem errorHTML_occurs (message : String) : OccursIn message (errorHTML message) := by
  refine ⟨"\n            <div style=\"text-align: center; padding: 2rem;\">"
      ++ "\n                <p>⚠️ No se pudieron cargar las reseñas: ",
    "</p>"
      ++ "\n                <button onclick=\"loadReviewsFromSheets(true)\" class=\"btn btn-secondary\" style=\"margin-top: 1rem;\">"
      ++ "\n                    🔄 Intentar de nuevo"
      ++ "\n                </button>"
      ++ "\n                <p style=\"font-size: 0.9rem; color: #7f8c8d; margin-top: 1rem;\">"
      ++ "\n                    Si el problema persiste, verifica que el Google Apps Script esté correctamente configurado."
      ++ "\n                </p>"
      ++ "\n            </div>"
      ++ "\n        ", ?_⟩
  simp only [errorHTML, String.append_assoc]

/-! ## Error envelopes -/

/-- C1, as the code has it. For every state of the cache and every envelope the
fetch step delivers whose `error` field is a non-empty string,
`loadReviewsFromSheets` leaves the cached reviews and the cached token as they
were, calls neither renderer, leaves the list and summary regions as they were,
and calls `handleLoadError` with that string, after which the error element of
the page is displayed and holds the message. -/
theorem error_envelope_spec (s : State) (showLoading : Bool) (primary : PrimaryOutcome)
    (fallback : JsonpResult) (e : Envelope) (message : String)
    (hfetch : (fetchData primary fallback).result = .ok (.envelope e))
    (herr : e.error = some message) (hne : message ≠ "") :
    (loadReviewsFromSheets s showLoading primary fallback).reviewsData = s.reviewsData ∧
    (loadReviewsFromSheets s showLoading primary fallback).lastUpdateTime = s.lastUpdateTime ∧
    (loadReviewsFromSheets s showLoading primary fallback).calls =
      s.calls ++ (if (fetchData primary fallback).fallbackStarted then [Call.loadWithJSONP] else [])
        ++ [Call.handleLoadError message] ∧
    (loadReviewsFromSheets s showLoading primary fallback).calls.countP Call.isRender =
      s.calls.countP Call.isRender ∧
    (loadReviewsFromSheets s showLoading primary fallback).dom.errorMessage =
      setContent (errorHTML message) (setDisplay "block" s.dom.errorMessage) ∧
    (∀ el ∈ (loadReviewsFromSheets s showLoading primary fallback).dom.errorMessage,
      el.display = "block" ∧ OccursIn message el.content) ∧
    (loadReviewsFromSheets s showLoading primary fallback).dom.reviewsList = s.dom.reviewsList ∧
    (loadReviewsFromSheets s showLoading primary fallback).dom.averageRating =
      s.dom.averageRating ∧
    (loadReviewsFromSheets s showLoading primary fallback).dom.totalReviews =
      s.dom.totalReviews ∧
    (loadReviewsFromSheets s showLoading primary fallback).dom.averageStars =
      s.dom.averageStars := by
  obtain ⟨hE, hmsg⟩ := hasError_of_nonempty e message herr hne
  rw [load_error_envelope s showLoading primary fallback e hfetch hE, hmsg]
  obtain ⟨h1, h2, h3, h4, h5, h6, h7, h8, -, -⟩ :=
    handled_fields (afterFetch (beginCycle s showLoading) (fetchData primary fallback)) message
  obtain ⟨f1, f2, f3, f4, -, f6, f7, f8, f9⟩ :=
    fetched_state_fields s showLoading (fetchData primary fallback)
  rw [h1, h2, h3, h4, h5, h6, h7, h8, f1, f2, f3, f4, f6, f7, f8, f9, setDisplay_setDisplay]
  refine ⟨rfl, rfl, rfl, ?_, rfl, ?_, rfl, rfl, rfl, rfl⟩
  · by_cases hfb : (fetchData primary fallback).fallbackStarted = true <;>
      simp [hfb, List.countP_append, Call.isRender]
  · intro el hel
    cases hdom : s.dom.errorMessage with
    | none => simp [hdom, setContent, setDisplay] at hel
    | some el0 =>
      simp [hdom, setContent, setDisplay] at hel
      subst hel
      exact ⟨rfl, errorHTML_occurs message⟩

/-- Witness of C1: the primary delivers an envelope with the error "quota" while
one review is cached. -/
theorem error_envelope_spec_witness :
    (loadReviewsFromSheets
        { reviewsData := [sampleReview], lastUpdateTime := .str "v1", dom := Dom.full, calls := [] }
        true
        (.response true 200 (.ok (.envelope { sampleEnvelope with error := some "quota" })))
        (.rejected "unused")).reviewsData = [sampleReview] ∧
    (loadReviewsFromSheets
        { reviewsData := [sampleReview], lastUpdateTime := .str "v1", dom := Dom.full, calls := [] }
        true
        (.response true 200 (.ok (.envelope { sampleEnvelope with error := some "quota" })))
        (.rejected "unused")).calls = [Call.handleLoadError "quota"] :=
  have h := error_envelope_spec
    { reviewsData := [sampleReview], lastUpdateTime := .str "v1", dom := Dom.full, calls := [] }
    true (.response true 200 (.ok (.envelope { sampleEnvelope with error := some "quota" })))
    (.rejected "unused") { sampleEnvelope with error := some "quota" } "quota" rfl rfl (by decide)
  ⟨h.1, h.2.2.1⟩

/-- Counterexample to C1 as stated: the `error` field is set to the empty string;
from the initial state the cache is replaced by the envelope's review and both
renderers are called, `handleLoadError` is not. -/
theorem empty_error_string_is_rendered :
    (loadReviewsFromSheets (State.initial Dom.full) true
        (.response true 200 (.ok (.envelope emptyErrorEnvelope)))
        (.rejected "unused")).reviewsData = [sampleReview] ∧
    (loadReviewsFromSheets (State.initial Dom.full) true
        (.response true 200 (.ok (.envelope emptyErrorEnvelope)))
        (.rejected "unused")).lastUpdateTime = .str "v1" ∧
    (loadReviewsFromSheets (State.initial Dom.full) true
        (.response true 200 (.ok (.envelope emptyErrorEnvelope)))
        (.rejected "unused")).calls =
      [Call.updateRatingSummary none, Call.displayReviews [sampleReview]] := by
  have h := load_changed (State.initial Dom.full) true
    (.response true 200 (.ok (.envelope emptyErrorEnvelope))) (.rejected "unused")
    emptyErrorEnvelope rfl rfl (Or.inr rfl)
  rw [h]
  exact ⟨rfl, rfl, rfl⟩

/-! ## Change detection -/

theorem delivered_iff (c : Cycle) (e : Envelope) :
    c.delivered = some e ↔
      (fetchData c.primary c.fallback).result = .ok (.envelope e) ∧ e.hasError = false := by
  unfold Cycle.delivered
  cases hres : (fetchData c.primary c.fallback).result with
  | error message => simp
  | ok data =>
    cases data with
    | nullish message => simp
    | envelope e2 =>
      by_cases he : e2.hasError = true
      · simp only [he, if_true, Except.ok.injEq, Payload.envelope.injEq]
        constructor
        · intro h2; cases h2
        · rintro ⟨h2, h3⟩
          subst h2
          rw [he] at h3
          cases h3
      · have he2 : e2.hasError = false := by simpa using he
        simp only [he2, Except.ok.injEq, Payload.envelope.injEq]
        constructor
        · intro h2
          simp at h2
          subst h2
          exact ⟨rfl, he2⟩
        · rintro ⟨h2, -⟩
          simp [h2]

/-- A cycle that delivers no envelope ends in the `catch` block with some message. -/
theorem not_delivered_handled (s : State) (c : Cycle) (h : c.delivered = none) :
    ∃ message, refresh s c = hideLoading (handleLoadError
      (afterFetch (beginCycle s c.showLoading) (fetchData c.primary c.fallback)) message) := by
  unfold Cycle.delivered at h
  unfold refresh
  cases hres : (fetchData c.primary c.fallback).result with
  | error message => exact ⟨message, load_fetch_failed s _ _ _ message hres⟩
  | ok data =>
    cases data with
    | nullish message => exact ⟨message, load_nullish s _ _ _ message hres⟩
    | envelope e =>
      rw [hres] at h
      have he : e.hasError = true := by
        by_cases he : e.hasError = true
        · exact he
        · simp [he] at h
      exact ⟨e.error.getD "", load_error_envelope s _ _ _ e hres he⟩

/-- A cycle that delivers no envelope leaves the cache and the list and summary
regions as they were. -/
theorem not_delivered_frame (s : State) (c : Cycle) (h : c.delivered = none) :
    (refresh s c).reviewsData = s.reviewsData ∧
    (refresh s c).lastUpdateTime = s.lastUpdateTime ∧
    (refresh s c).dom.reviewsList = s.dom.reviewsList ∧
    (refresh s c).dom.averageRating = s.dom.averageRating ∧
    (refresh s c).dom.totalReviews = s.dom.totalReviews ∧
    (refresh s c).dom.averageStars = s.dom.averageStars := by
  obtain ⟨message, hm⟩ := not_delivered_handled s c h
  obtain ⟨h1, h2, -, -, h5, h6, h7, h8, -, -⟩ :=
    handled_fields (afterFetch (beginCycle s c.showLoading) (fetchData c.primary c.fallback))
      message
  obtain ⟨f1, f2, -, -, -, f6, f7, f8, f9⟩ :=
    fetched_state_fields s c.showLoading (fetchData c.primary c.fallback)
  rw [hm, h1, h2, h5, h6, h7, h8, f1, f2, f6, f7, f8, f9]
  exact ⟨rfl, rfl, rfl, rfl, rfl, rfl⟩

/-- A cycle that delivers a duplicate changes nothing of the cache, the record of
renderer calls, or the list and summary regions. -/
theorem delivered_unchanged (s : State) (c : Cycle) (e : Envelope) (h : c.delivered = some e)
    (htoken : s.lastUpdateTime = e.lastUpdated) (hcache : s.reviewsData ≠ []) :
    (refresh s c).reviewsData = s.reviewsData ∧
    (refresh s c).lastUpdateTime = s.lastUpdateTime ∧
    (refresh s c).calls =
      s.calls ++
        (if (fetchData c.primary c.fallback).fallbackStarted then [Call.loadWithJSONP] else []) ∧
    (refresh s c).dom.reviewsList = s.dom.reviewsList ∧
    (refresh s c).dom.averageRating = s.dom.averageRating ∧
    (refresh s c).dom.totalReviews = s.dom.totalReviews ∧
    (refresh s c).dom.averageStars = s.dom.averageStars ∧
    (refresh s c).dom.noReviews = s.dom.noReviews := by
  obtain ⟨hres, herr⟩ := (delivered_iff c e).mp h
  unfold refresh
  rw [load_unchanged s c.showLoading c.primary c.fallback e hres herr htoken hcache]
  obtain ⟨k1, k2, k3, k4, k5, k6, k7, -, k9⟩ :=
    skipped_fields (afterFetch (beginCycle s c.showLoading) (fetchData c.primary c.fallback))
  obtain ⟨f1, f2, f3, -, f5, f6, f7, f8, f9⟩ :=
    fetched_state_fields s c.showLoading (fetchData c.primary c.fallback)
  rw [k1, k2, k3, k4, k5, k6, k7, k9, f1, f2, f3, f5, f6, f7, f8, f9]
  exact ⟨rfl, rfl, rfl, rfl, rfl, rfl, rfl, rfl⟩

/-- A cycle that delivers an envelope with a new token, or finds the cache empty,
applies the envelope. -/
theorem delivered_changed (s : State) (c : Cycle) (e : Envelope) (h : c.delivered = some e)
    (hnew : s.lastUpdateTime ≠ e.lastUpdated ∨ s.reviewsData = []) :
    (refresh s c).reviewsData = e.reviews.getD [] ∧
    (refresh s c).lastUpdateTime = e.lastUpdated ∧
    (refresh s c).calls =
      s.calls ++
        (if (fetchData c.primary c.fallback).fallbackStarted then [Call.loadWithJSONP] else []) ++
        [Call.updateRatingSummary e.summary, Call.displayReviews (e.reviews.getD [])] ∧
    (refresh s c).dom.reviewsList =
      setContent (String.join ((e.reviews.getD []).map createReviewHTML)) s.dom.reviewsList ∧
    (refresh s c).dom.averageRating =
      setContent (toFixed1 (e.summary.getD defaultSummary).average) s.dom.averageRating ∧
    (refresh s c).dom.totalReviews =
      setContent (intToString (e.summary.getD defaultSummary).total) s.dom.totalReviews ∧
    (refresh s c).dom.averageStars =
      setContent (averageStarsHTML (e.summary.getD defaultSummary).average) s.dom.averageStars := by
  obtain ⟨hres, herr⟩ := (delivered_iff c e).mp h
  unfold refresh
  rw [load_changed s c.showLoading c.primary c.fallback e hres herr hnew]
  obtain ⟨r1, r2, r3, r4, r5, r6, r7, -⟩ :=
    rendered_fields
      { afterFetch (beginCycle s c.showLoading) (fetchData c.primary c.fallback) with
        reviewsData := e.reviews.getD [], lastUpdateTime := e.lastUpdated }
      e.summary (e.reviews.getD [])
  obtain ⟨-, -, f3, -, -, f6, f7, f8, f9⟩ :=
    fetched_state_fields s c.showLoading (fetchData c.primary c.fallback)
  rw [r1, r2, r3, r4, r5, r6, r7]
  simp [f3, f6, f7, f8, f9]

/-- After a cycle that delivers an envelope, the cached token is its token. -/
theorem token_after_delivered (s : State) (c : Cycle) (e : Envelope)
    (h : c.delivered = some e) : (refresh s c).lastUpdateTime = e.lastUpdated := by
  by_cases hskip : s.lastUpdateTime = e.lastUpdated ∧ s.reviewsData ≠ []
  · rw [(delivered_unchanged s c e h hskip.1 hskip.2).2.1, hskip.1]
  · have hnew : s.lastUpdateTime ≠ e.lastUpdated ∨ s.reviewsData = [] := by
      by_cases ht : s.lastUpdateTime = e.lastUpdated
      · right
        by_contra hne
        exact hskip ⟨ht, hne⟩
      · left; exact ht
    exact (delivered_changed s c e h hnew).2.1

/-- C2. For two consecutive calls of `loadReviewsFromSheets` that each get a
non-error envelope, the two envelopes having the same `lastUpdated` token: if the
cache has reviews after the first call, the second call calls neither
`updateRatingSummary` nor `displayReviews` and leaves the cached reviews, the
cached token and the rendered regions as they were. In particular the envelope of
the end-to-end example, delivered twice from the initial state, is rendered by
one call of each renderer in all. -/
theorem same_token_no_rerender :
    (∀ (s : State) (c1 c2 : Cycle) (e1 e2 : Envelope),
      c1.delivered = some e1 → c2.delivered = some e2 →
      e1.lastUpdated = e2.lastUpdated → (refresh s c1).reviewsData ≠ [] →
      (refresh (refresh s c1) c2).calls.countP Call.isRender =
        (refresh s c1).calls.countP Call.isRender ∧
      (refresh (refresh s c1) c2).calls =
        (refresh s c1).calls ++
          (if (fetchData c2.primary c2.fallback).fallbackStarted then [Call.loadWithJSONP]
           else []) ∧
      (refresh (refresh s c1) c2).reviewsData = (refresh s c1).reviewsData ∧
      (refresh (refresh s c1) c2).lastUpdateTime = (refresh s c1).lastUpdateTime ∧
      (refresh (refresh s c1) c2).dom.reviewsList = (refresh s c1).dom.reviewsList ∧
      (refresh (refresh s c1) c2).dom.averageRating = (refresh s c1).dom.averageRating ∧
      (refresh (refresh s c1) c2).dom.totalReviews = (refresh s c1).dom.totalReviews ∧
      (refresh (refresh s c1) c2).dom.averageStars = (refresh s c1).dom.averageStars) ∧
    (∀ (dom : Dom) (c1 c2 : Cycle),
      c1.delivered = some sampleEnvelope → c2.delivered = some sampleEnvelope →
      (runCycles (State.initial dom) [c1, c2]).calls.filter Call.isRender =
        [Call.updateRatingSummary (some { average := 5, total := 1 }),
         Call.displayReviews [sampleReview]]) := by
  constructor
  · intro s c1 c2 e1 e2 h1 h2 htok hcache
    have ht : (refresh s c1).lastUpdateTime = e2.lastUpdated := by
      rw [token_after_delivered s c1 e1 h1, htok]
    obtain ⟨u1, u2, u3, u4, u5, u6, u7, -⟩ := delivered_unchanged (refresh s c1) c2 e2 h2 ht hcache
    refine ⟨?_, u3, u1, u2, u4, u5, u6, u7⟩
    rw [u3]
    by_cases hfb : (fetchData c2.primary c2.fallback).fallbackStarted = true <;>
      simp [hfb, List.countP_append, Call.isRender]
  · intro dom c1 c2 h1 h2
    have hfirst := delivered_changed (State.initial dom) c1 sampleEnvelope h1 (Or.inr rfl)
    have hdata : (refresh (State.initial dom) c1).reviewsData ≠ [] := by
      rw [hfirst.1]; simp [sampleEnvelope]
    have htok : (refresh (State.initial dom) c1).lastUpdateTime = sampleEnvelope.lastUpdated :=
      hfirst.2.1
    have hsecond := delivered_unchanged (refresh (State.initial dom) c1) c2 sampleEnvelope h2
      htok hdata
    simp only [runCycles, List.foldl_cons, List.foldl_nil]
    rw [hsecond.2.2.1, hfirst.2.2.1]
    by_cases hf1 : (fetchData c1.primary c1.fallback).fallbackStarted = true <;>
      by_cases hf2 : (fetchData c2.primary c2.fallback).fallbackStarted = true <;>
      simp [hf1, hf2, State.initial, Call.isRender, sampleEnvelope]

/-- Witness of C2: the envelope of the end-to-end example arrives by the
primary transport, then by the fallback after an HTTP 500. -/
theorem same_token_no_rerender_witness :
    (Cycle.mk true (.response true 200 (.ok (.envelope sampleEnvelope)))
        (.rejected "unused")).delivered = some sampleEnvelope ∧
    (Cycle.mk false (.response false 500 (.error "no body"))
        (.resolved (.envelope sampleEnvelope))).delivered = some sampleEnvelope ∧
    (runCycles (State.initial Dom.full)
        [Cycle.mk true (.response true 200 (.ok (.envelope sampleEnvelope))) (.rejected "unused"),
         Cycle.mk false (.response false 500 (.error "no body"))
           (.resolved (.envelope sampleEnvelope))]).calls.filter Call.isRender =
      [Call.updateRatingSummary (some { average := 5, total := 1 }),
       Call.displayReviews [sampleReview]] :=
  ⟨rfl, rfl, same_token_no_rerender.2 Dom.full _ _ rfl rfl⟩

/-! ## The refresh invariant -/

theorem runCycles_cons (s : State) (c : Cycle) (cs : List Cycle) :
    runCycles s (c :: cs) = runCycles (refresh s c) cs := rfl

/-- One cycle keeps the page in step with the envelope on display. -/
theorem reflects_step (dom0 : Dom) (shown : Option Envelope) (s : State) (c : Cycle)
    (h : Reflects dom0 shown s) :
    Reflects dom0
      (match c.delivered with
       | none => shown
       | some e => if isDuplicate shown e then shown else some e)
      (refresh s c) := by
  cases hd : c.delivered with
  | none =>
    obtain ⟨n1, n2, n3, n4, n5, n6⟩ := not_delivered_frame s c hd
    cases shown with
    | none =>
      obtain ⟨a1, a2, a3, a4, a5, a6⟩ := h
      exact ⟨n1.trans a1, n2.trans a2, n3.trans a3, n4.trans a4, n5.trans a5, n6.trans a6⟩
    | some cur =>
      obtain ⟨a1, a2, a3, a4, a5, a6⟩ := h
      exact ⟨n1.trans a1, n2.trans a2, n3.trans a3, n4.trans a4, n5.trans a5, n6.trans a6⟩
  | some e =>
    cases shown with
    | none =>
      obtain ⟨a1, -, a3, a4, a5, a6⟩ := h
      obtain ⟨c1, c2, -, c4, c5, c6, c7⟩ := delivered_changed s c e hd (Or.inr a1)
      simp only [isDuplicate, Bool.false_eq_true, if_false]
      exact ⟨c1, c2, by rw [c4, a3], by rw [c5, a4], by rw [c6, a5], by rw [c7, a6]⟩
    | some cur =>
      obtain ⟨a1, a2, a3, a4, a5, a6⟩ := h
      by_cases hdup : cur.lastUpdated = e.lastUpdated ∧ cur.reviews.getD [] ≠ []
      · have hdup2 : isDuplicate (some cur) e = true := by simp [isDuplicate, hdup]
        obtain ⟨u1, u2, -, u4, u5, u6, u7, -⟩ :=
          delivered_unchanged s c e hd (a2.trans hdup.1) (by rw [a1]; exact hdup.2)
        simp only [hdup2, if_true]
        exact ⟨u1.trans a1, u2.trans a2, u4.trans a3, u5.trans a4, u6.trans a5, u7.trans a6⟩
      · have hdup2 : isDuplicate (some cur) e = false := by simp [isDuplicate, hdup]
        have hnew : s.lastUpdateTime ≠ e.lastUpdated ∨ s.reviewsData = [] := by
          by_cases ht : cur.lastUpdated = e.lastUpdated
          · right
            rw [a1]
            by_contra hne
            exact hdup ⟨ht, hne⟩
          · left
            rw [a2]
            exact ht
        obtain ⟨c1, c2, -, c4, c5, c6, c7⟩ := delivered_changed s c e hd hnew
        simp only [hdup2, Bool.false_eq_true, if_false]
        exact ⟨c1, c2, by rw [c4, a3, setContent_setContent],
          by rw [c5, a4, setContent_setContent], by rw [c6, a5, setContent_setContent],
          by rw [c7, a6, setContent_setContent]⟩

/-- Any sequence of cycles keeps the page in step with the envelope on display. -/
theorem reflects_run (dom0 : Dom) (cycles : List Cycle) :
    ∀ (shown : Option Envelope) (s : State), Reflects dom0 shown s →
      Reflects dom0 (shownEnvelope shown (cycles.filterMap Cycle.delivered))
        (runCycles s cycles) := by
  induction cycles with
  | nil => intro shown s h; exact h
  | cons c cs ih =>
    intro shown s h
    have hstep := reflects_step dom0 shown s c h
    rw [runCycles_cons]
    cases hd : c.delivered with
    | none =>
      rw [hd] at hstep
      rw [List.filterMap_cons_none hd]
      exact ih _ _ hstep
    | some e =>
      rw [hd] at hstep
      rw [List.filterMap_cons_some hd]
      exact ih _ _ hstep

/-- The cached token after a sequence of cycles is the token of the last envelope
delivered, or the token before when none was delivered. -/
theorem token_run (cycles : List Cycle) :
    ∀ s : State, (runCycles s cycles).lastUpdateTime =
      (((cycles.filterMap Cycle.delivered).getLast?).map
        (fun e => e.lastUpdated)).getD s.lastUpdateTime := by
  induction cycles with
  | nil => intro s; rfl
  | cons c cs ih =>
    intro s
    rw [runCycles_cons, ih]
    cases hd : c.delivered with
    | none =>
      rw [List.filterMap_cons_none hd, (not_delivered_frame s c hd).2.1]
    | some e =>
      rw [List.filterMap_cons_some hd, token_after_delivered s c e hd, List.getLast?_cons]
      cases (List.filterMap Cycle.delivered cs).getLast? <;> rfl

/-- The envelope on display is the one before or one of those delivered since. -/
theorem shownEnvelope_mem (delivered : List Envelope) :
    ∀ (shown : Option Envelope) (e : Envelope),
      shownEnvelope shown delivered = some e → shown = some e ∨ e ∈ delivered := by
  induction delivered with
  | nil => intro shown e h; left; exact h
  | cons d ds ih =>
    intro shown e h
    rw [shownEnvelope] at h
    rcases ih _ e h with h2 | h2
    · by_cases hdup : isDuplicate shown d = true
      · rw [if_pos hdup] at h2
        left; exact h2
      · rw [if_neg hdup] at h2
        right
        cases h2
        exact List.mem_cons_self _ _
    · right
      exact List.mem_cons_of_mem _ h2

theorem shownEnvelope_isSome (delivered : List Envelope) :
    ∀ shown : Option Envelope, (shownEnvelope shown delivered).isSome =
      (shown.isSome || !delivered.isEmpty) := by
  induction delivered with
  | nil => intro shown; simp [shownEnvelope]
  | cons d ds ih =>
    intro shown
    rw [shownEnvelope, ih]
    by_cases hdup : isDuplicate shown d = true
    · rw [if_pos hdup]
      cases shown with
      | none => simp [isDuplicate] at hdup
      | some cur => simp
    · rw [if_neg hdup]
      simp

theorem shownEnvelope_append (a b : List Envelope) :
    ∀ shown, shownEnvelope shown (a ++ b) = shownEnvelope (shownEnvelope shown a) b := by
  induction a with
  | nil => intro shown; rfl
  | cons e es ih => intro shown; simp only [List.cons_append, shownEnvelope]; exact ih _

theorem shownEnvelope_token (l : List Envelope) :
    ∀ (shown : Option Envelope) (d : Envelope), l.getLast? = some d →
      ∃ e, shownEnvelope shown l = some e ∧ e.lastUpdated = d.lastUpdated := by
  induction l with
  | nil => intro shown d h; simp at h
  | cons x xs ih =>
    intro shown d h
    rw [shownEnvelope]
    cases xs with
    | nil =>
      simp at h
      subst h
      rw [shownEnvelope]
      by_cases hdup : isDuplicate shown x = true
      · rw [if_pos hdup]
        cases shown with
        | none => simp [isDuplicate] at hdup
        | some cur =>
          simp [isDuplicate] at hdup
          exact ⟨cur, rfl, hdup.1⟩
      · rw [if_neg hdup]
        exact ⟨x, rfl, rfl⟩
    | cons y ys =>
      rw [List.getLast?_cons_cons] at h
      exact ih _ d h

theorem shownEnvelope_all_duplicates (cur : Envelope) (hcur : hasReviews cur = true)
    (rest : List Envelope) (h : ∀ e ∈ rest, e.lastUpdated = cur.lastUpdated) :
    shownEnvelope (some cur) rest = some cur := by
  induction rest with
  | nil => rfl
  | cons e es ih =>
    have hdup : isDuplicate (some cur) e = true := by
      have h1 := h e (List.mem_cons_self _ _)
      simp only [hasReviews, decide_eq_true_eq] at hcur
      simp [isDuplicate, h1, hcur]
    rw [shownEnvelope, if_pos hdup]
    exact ih (fun x hx => h x (List.mem_cons_of_mem _ hx))

theorem shownEnvelope_run (t : JsValue) (run : List Envelope) :
    ∀ shown : Option Envelope, run ≠ [] → (∀ e ∈ run, e.lastUpdated = t) →
      (∀ cur, shown = some cur → cur.lastUpdated ≠ t ∨ hasReviews cur = false) →
      shownEnvelope shown run = firstWithReviewsOrLast run := by
  induction run with
  | nil => intro shown h; exact absurd rfl h
  | cons e es ih =>
    intro shown _ hall hshown
    have het : e.lastUpdated = t := hall e (List.mem_cons_self _ _)
    have hrest : ∀ x ∈ es, x.lastUpdated = t := fun x hx => hall x (List.mem_cons_of_mem _ hx)
    have hdup : ¬ isDuplicate shown e = true := by
      cases shown with
      | none => simp [isDuplicate]
      | some cur =>
        rcases hshown cur rfl with h | h
        · simp only [isDuplicate, decide_eq_true_eq, not_and]
          intro h2
          rw [het] at h2
          exact absurd h2 h
        · simp only [hasReviews, decide_eq_false_iff_not, not_not] at h
          simp [isDuplicate, h]
    rw [shownEnvelope, if_neg hdup]
    by_cases hr : hasReviews e = true
    · rw [shownEnvelope_all_duplicates e hr es (fun x hx => (hrest x hx).trans het.symm)]
      simp [firstWithReviewsOrLast, List.find?, hr]
    · have hr2 : hasReviews e = false := by simpa using hr
      cases es with
      | nil => simp [shownEnvelope, firstWithReviewsOrLast, List.find?, hr2]
      | cons y ys =>
        rw [ih (some e) (by simp) hrest (fun cur hc => by cases hc; exact Or.inr hr2)]
        simp [firstWithReviewsOrLast, List.find?, hr2]

theorem shownEnvelope_declarative (pre run : List Envelope) (t : JsValue)
    (hrun : run ≠ []) (hall : ∀ e ∈ run, e.lastUpdated = t)
    (hpre : ∀ d, pre.getLast? = some d → d.lastUpdated ≠ t) :
    shownEnvelope none (pre ++ run) = firstWithReviewsOrLast run := by
  rw [shownEnvelope_append]
  apply shownEnvelope_run t run _ hrun hall
  intro cur hcur
  left
  cases hl : pre.getLast? with
  | none =>
    rw [List.getLast?_eq_none_iff] at hl
    subst hl
    simp [shownEnvelope] at hcur
  | some d =>
    obtain ⟨e, he, htok⟩ := shownEnvelope_token pre none d hl
    rw [he] at hcur
    cases hcur
    rw [htok]
    exact hpre d hl

theorem run_decomposition (l : List Envelope) (hl : l ≠ []) :
    ∃ pre run t, l = pre ++ run ∧ run ≠ [] ∧ (∀ e ∈ run, e.lastUpdated = t) ∧
      (∀ d, pre.getLast? = some d → d.lastUpdated ≠ t) := by
  induction l with
  | nil => exact absurd rfl hl
  | cons e es ih =>
    cases es with
    | nil => exact ⟨[], [e], e.lastUpdated, rfl, by simp, by simp, by simp⟩
    | cons y ys =>
      obtain ⟨pre, run, t, h1, h2, h3, h4⟩ := ih (by simp)
      by_cases hc : pre = [] ∧ e.lastUpdated = t
      · refine ⟨[], e :: run, t, ?_, by simp, ?_, by simp⟩
        · rw [h1, hc.1]; rfl
        · intro x hx
          rcases List.mem_cons.mp hx with h | h
          · rw [h]; exact hc.2
          · exact h3 x h
      · refine ⟨e :: pre, run, t, ?_, h2, h3, ?_⟩
        · rw [h1]; rfl
        · intro d hd
          cases pre with
          | nil =>
            simp at hd
            subst hd
            intro h
            exact hc ⟨rfl, h⟩
          | cons p ps =>
            rw [List.getLast?_cons_cons] at hd
            exact h4 d hd


theorem firstWithReviewsOrLast_mem (run : List Envelope) (e : Envelope)
    (h : firstWithReviewsOrLast run = some e) : e ∈ run := by
  unfold firstWithReviewsOrLast at h
  cases hf : run.find? hasReviews with
  | none =>
    rw [hf] at h
    exact List.mem_of_getLast?_eq_some h
  | some x =>
    rw [hf] at h
    cases h
    exact List.mem_of_find?_eq_some hf

/-- The invariant over a run of cycles from the initial state. -/
theorem invariant_of_run (dom0 : Dom) (cycles : List Cycle) :
    (cycles.filterMap Cycle.delivered = [] →
      (runCycles (State.initial dom0) cycles).reviewsData = [] ∧
      (runCycles (State.initial dom0) cycles).lastUpdateTime = JsValue.null ∧
      (runCycles (State.initial dom0) cycles).dom.reviewsList = dom0.reviewsList ∧
      (runCycles (State.initial dom0) cycles).dom.averageRating = dom0.averageRating ∧
      (runCycles (State.initial dom0) cycles).dom.totalReviews = dom0.totalReviews ∧
      (runCycles (State.initial dom0) cycles).dom.averageStars = dom0.averageStars) ∧
    (cycles.filterMap Cycle.delivered ≠ [] →
      ∃ e, shownEnvelope none (cycles.filterMap Cycle.delivered) = some e) ∧
    (∀ e, shownEnvelope none (cycles.filterMap Cycle.delivered) = some e →
      e ∈ cycles.filterMap Cycle.delivered ∧
      ((cycles.filterMap Cycle.delivered).getLast?).map (fun d => d.lastUpdated) =
        some e.lastUpdated ∧
      (runCycles (State.initial dom0) cycles).lastUpdateTime = e.lastUpdated ∧
      (runCycles (State.initial dom0) cycles).reviewsData = e.reviews.getD [] ∧
      Shows dom0 (runCycles (State.initial dom0) cycles).dom e) := by
  have hinit : Reflects dom0 none (State.initial dom0) := ⟨rfl, rfl, rfl, rfl, rfl, rfl⟩
  have hrun := reflects_run dom0 cycles none (State.initial dom0) hinit
  have htok := token_run cycles (State.initial dom0)
  have hsome := shownEnvelope_isSome (cycles.filterMap Cycle.delivered) none
  refine ⟨?_, ?_, ?_⟩
  · intro hnil
    rw [hnil] at hrun
    exact hrun
  · intro hne
    cases hl : cycles.filterMap Cycle.delivered with
    | nil => exact absurd hl hne
    | cons d ds =>
      rw [hl] at hsome
      simp only [Option.isSome_none, List.isEmpty_cons, Bool.not_false, Bool.or_true] at hsome
      exact Option.isSome_iff_exists.mp hsome
  · intro e he
    rw [he] at hrun
    obtain ⟨r1, r2, r3⟩ := hrun
    have hmem : e ∈ cycles.filterMap Cycle.delivered := by
      rcases shownEnvelope_mem _ none e he with h | h
      · cases h
      · exact h
    refine ⟨hmem, ?_, r2, r1, r3⟩
    cases hlast : (cycles.filterMap Cycle.delivered).getLast? with
    | none =>
      rw [List.getLast?_eq_none_iff] at hlast
      rw [hlast] at hmem
      cases hmem
    | some d =>
      rw [hlast] at htok
      simp only [Option.map_some', Option.getD_some] at htok
      simp only [Option.map_some', Option.some.injEq]
      rw [← htok, r2]

/-- C3. Invariant of the refresh cycles, from the empty cache with the `null`
token and over any sequence of fetch outcomes. As long as no envelope got past
the error test, the cache is empty, the token is `null` and the list and summary
regions are untouched. Afterwards the envelope on display (the last one that was
not a duplicate) is one of those delivered, it carries the token of the most
recent envelope delivered, the cached token is that token, the cached reviews are
its reviews, and the list and summary regions show its reviews and its summary.
Read on the envelopes alone: when the envelopes delivered end with a run that
carries one token `t`, a token the envelope before the run does not carry, the
envelope on display is the first of the run that has reviews, or the last of the
run when none has. Every non-empty sequence of envelopes ends with such a run. A
non-error envelope whose token differs from the cached one, or that arrives while
the cache is empty, replaces the cache with its reviews (none when absent) and
its token, and renders its summary (the default when absent) and its list. -/
theorem refresh_invariant :
    (∀ (dom0 : Dom) (cycles : List Cycle),
      (cycles.filterMap Cycle.delivered = [] →
        (runCycles (State.initial dom0) cycles).reviewsData = [] ∧
        (runCycles (State.initial dom0) cycles).lastUpdateTime = JsValue.null ∧
        (runCycles (State.initial dom0) cycles).dom.reviewsList = dom0.reviewsList ∧
        (runCycles (State.initial dom0) cycles).dom.averageRating = dom0.averageRating ∧
        (runCycles (State.initial dom0) cycles).dom.totalReviews = dom0.totalReviews ∧
        (runCycles (State.initial dom0) cycles).dom.averageStars = dom0.averageStars) ∧
      (cycles.filterMap Cycle.delivered ≠ [] →
        ∃ e, shownEnvelope none (cycles.filterMap Cycle.delivered) = some e) ∧
      (∀ e, shownEnvelope none (cycles.filterMap Cycle.delivered) = some e →
        e ∈ cycles.filterMap Cycle.delivered ∧
        ((cycles.filterMap Cycle.delivered).getLast?).map (fun d => d.lastUpdated) =
          some e.lastUpdated ∧
        (runCycles (State.initial dom0) cycles).lastUpdateTime = e.lastUpdated ∧
        (runCycles (State.initial dom0) cycles).reviewsData = e.reviews.getD [] ∧
        Shows dom0 (runCycles (State.initial dom0) cycles).dom e)) ∧
    (∀ (dom0 : Dom) (cycles : List Cycle) (before run : List Envelope) (t : JsValue),
      cycles.filterMap Cycle.delivered = before ++ run → run ≠ [] →
      (∀ e ∈ run, e.lastUpdated = t) →
      (∀ d, before.getLast? = some d → d.lastUpdated ≠ t) →
      ∃ e, firstWithReviewsOrLast run = some e ∧ e ∈ run ∧
        (runCycles (State.initial dom0) cycles).lastUpdateTime = t ∧
        (runCycles (State.initial dom0) cycles).reviewsData = e.reviews.getD [] ∧
        Shows dom0 (runCycles (State.initial dom0) cycles).dom e) ∧
    (∀ delivered : List Envelope, delivered ≠ [] →
      ∃ before run t, delivered = before ++ run ∧ run ≠ [] ∧
        (∀ e ∈ run, e.lastUpdated = t) ∧
        (∀ d, before.getLast? = some d → d.lastUpdated ≠ t)) ∧
    (∀ (s : State) (c : Cycle) (e : Envelope), c.delivered = some e →
      (s.lastUpdateTime ≠ e.lastUpdated ∨ s.reviewsData = []) →
      (refresh s c).reviewsData = e.reviews.getD [] ∧
      (refresh s c).lastUpdateTime = e.lastUpdated ∧
      (refresh s c).calls =
        s.calls ++
          (if (fetchData c.primary c.fallback).fallbackStarted then [Call.loadWithJSONP]
           else []) ++
          [Call.updateRatingSummary e.summary, Call.displayReviews (e.reviews.getD [])] ∧
      (refresh s c).dom.reviewsList =
        setContent (String.join ((e.reviews.getD []).map createReviewHTML)) s.dom.reviewsList ∧
      (refresh s c).dom.averageRating =
        setContent (toFixed1 (e.summary.getD defaultSummary).average) s.dom.averageRating ∧
      (refresh s c).dom.totalReviews =
        setContent (intToString (e.summary.getD defaultSummary).total) s.dom.totalReviews ∧
      (refresh s c).dom.averageStars =
        setContent (averageStarsHTML (e.summary.getD defaultSummary).average)
          s.dom.averageStars) := by
  refine ⟨invariant_of_run, ?_, run_decomposition, ?_⟩
  · intro dom0 cycles before run t hsplit hrun hall hpre
    have hshown : shownEnvelope none (cycles.filterMap Cycle.delivered) =
        firstWithReviewsOrLast run := by
      rw [hsplit]
      exact shownEnvelope_declarative before run t hrun hall hpre
    obtain ⟨-, hex, hinv⟩ := invariant_of_run dom0 cycles
    have hne : cycles.filterMap Cycle.delivered ≠ [] := by
      rw [hsplit]
      intro h
      exact hrun (List.append_eq_nil.mp h).2
    obtain ⟨e, he⟩ := hex hne
    obtain ⟨-, -, i3, i4, i5⟩ := hinv e he
    have he2 : firstWithReviewsOrLast run = some e := by rw [← hshown, he]
    have hmem := firstWithReviewsOrLast_mem run e he2
    exact ⟨e, he2, hmem, by rw [i3]; exact hall e hmem, i4, i5⟩
  · intro s c e hd hnew
    exact delivered_changed s c e hd hnew

/-- Witness of C3: the example envelope, then an HTTP 500 with a fallback that
times out, then the example envelope again by the fallback. -/
theorem refresh_invariant_witness :
    shownEnvelope none
      ([Cycle.mk true (.response true 200 (.ok (.envelope sampleEnvelope))) (.rejected "unused"),
        Cycle.mk false (.response false 500 (.error "no body"))
          (.rejected "Timeout en conexión JSONP"),
        Cycle.mk false (.response false 500 (.error "no body"))
          (.resolved (.envelope sampleEnvelope))].filterMap Cycle.delivered) =
      some sampleEnvelope ∧
    (runCycles (State.initial Dom.full)
      [Cycle.mk true (.response true 200 (.ok (.envelope sampleEnvelope))) (.rejected "unused"),
        Cycle.mk false (.response false 500 (.error "no body"))
          (.rejected "Timeout en conexión JSONP"),
        Cycle.mk false (.response false 500 (.error "no body"))
          (.resolved (.envelope sampleEnvelope))]).reviewsData = [sampleReview] :=
  ⟨by decide, (refresh_invariant.1 Dom.full _ |>.2.2 sampleEnvelope (by decide)).2.2.2.1⟩

/-! ## Properties of the fallback transport -/

theorem cleanup_settle_pending (name : String) (p : Page) (c : JsonpCall) (result : JsonpResult)
    (hc : p.calls = [c]) (hname : c.callbackName = name)
    (hp : c.promise = none) (ha : c.scriptAttached = true) (hw : p.window name = some 0)
    (h0 : c.cleanupCalls = 0) (hd : c.deregistrations = 0) (hr : c.removals = 0) :
    (settle (cleanup p 0) 0 result).calls =
      [{ callbackName := name, timerArmed := false, scriptAttached := false,
         promise := some result, cleanupCalls := 1, deregistrations := 1, removals := 1 }] ∧
    (settle (cleanup p 0) 0 result).window name = none := by
  subst hname
  simp [settle, cleanup, hc, hp, ha, hw, h0, hd, hr]

theorem cleanup_settle_settled (name : String) (p : Page) (c : JsonpCall) (result : JsonpResult)
    (hc : p.calls = [c]) (hname : c.callbackName = name)
    (hp : c.promise ≠ none) (ha : c.scriptAttached = false) (hw : p.window name = none) :
    (settle (cleanup p 0) 0 result).calls =
      [{ c with timerArmed := false, cleanupCalls := c.cleanupCalls + 1 }] ∧
    (settle (cleanup p 0) 0 result).window name = none := by
  subst hname
  cases hpr : c.promise with
  | none => exact absurd hpr hp
  | some r =>
    simp [settle, cleanup, hc, hpr, ha, hw]

theorem jsonpStep_inv (name : String) (p : Page) (ev : JsonpEvent) (h : JsonpInv name p) :
    JsonpInv name (jsonpStep p ev) ∧
    (∀ c, p.calls = [c] → c.promise ≠ none →
      ∃ c2, (jsonpStep p ev).calls = [c2] ∧ c2.promise = c.promise) := by
  obtain ⟨c, hc, hname, hcase⟩ := h
  have hget0 : p.calls[0]? = some c := by rw [hc]; rfl
  have hgetS : ∀ n, p.calls[n + 1]? = none := by intro n; rw [hc]; rfl
  have hkeep : JsonpInv name p ∧
      (∀ c, p.calls = [c] → c.promise ≠ none → ∃ c2, p.calls = [c2] ∧ c2.promise = c.promise) :=
    ⟨⟨c, hc, hname, hcase⟩, fun c1 h1 _ => ⟨c1, h1, rfl⟩⟩
  have hpending : ∀ result, c.promise = none → c.scriptAttached = true →
      p.window name = some 0 → c.cleanupCalls = 0 → c.deregistrations = 0 → c.removals = 0 →
      JsonpInv name (settle (cleanup p 0) 0 result) ∧
      (∀ c1, p.calls = [c1] → c1.promise ≠ none →
        ∃ c2, (settle (cleanup p 0) 0 result).calls = [c2] ∧ c2.promise = c1.promise) := by
    intro result hp ha hw h0 hd hr
    obtain ⟨k1, k2⟩ := cleanup_settle_pending name p c result hc hname hp ha hw h0 hd hr
    refine ⟨⟨_, k1, rfl, Or.inr ⟨by simp, rfl, rfl, k2, le_refl _, rfl, rfl⟩⟩, ?_⟩
    intro c1 h1 hne
    rw [hc] at h1
    cases h1
    exact absurd hp hne
  have hsettled : ∀ result, c.promise ≠ none → c.scriptAttached = false →
      p.window name = none → 1 ≤ c.cleanupCalls → c.deregistrations = 1 → c.removals = 1 →
      JsonpInv name (settle (cleanup p 0) 0 result) ∧
      (∀ c1, p.calls = [c1] → c1.promise ≠ none →
        ∃ c2, (settle (cleanup p 0) 0 result).calls = [c2] ∧ c2.promise = c1.promise) := by
    intro result hp ha hw h1 hd hr
    obtain ⟨k1, k2⟩ := cleanup_settle_settled name p c result hc hname hp ha hw
    refine ⟨⟨_, k1, hname, Or.inr ⟨hp, rfl, ha, k2, by simp, hd, hr⟩⟩, ?_⟩
    intro c1 h1 _
    rw [hc] at h1
    cases h1
    exact ⟨_, k1, rfl⟩
  cases ev with
  | timeout i =>
    cases i with
    | zero =>
      simp only [jsonpStep, hget0]
      rcases hcase with ⟨hp, ht, ha, hw, h0, hd, hr⟩ | ⟨hp, ht, ha, hw, h1, hd, hr⟩
      · rw [if_pos ht]
        exact hpending _ hp ha hw h0 hd hr
      · rw [if_neg (by simp [ht])]
        exact hkeep
    | succ n =>
      simp only [jsonpStep, hgetS]
      exact hkeep
  | scriptError i =>
    cases i with
    | zero =>
      simp only [jsonpStep, hget0]
      rcases hcase with ⟨hp, ht, ha, hw, h0, hd, hr⟩ | ⟨hp, ht, ha, hw, h1, hd, hr⟩
      · exact hpending _ hp ha hw h0 hd hr
      · exact hsettled _ hp ha hw h1 hd hr
    | succ n =>
      simp only [jsonpStep, hgetS]
      exact hkeep
  | scriptRuns i data =>
    cases i with
    | zero =>
      simp only [jsonpStep, hget0, hname]
      rcases hcase with ⟨hp, ht, ha, hw, h0, hd, hr⟩ | ⟨hp, ht, ha, hw, h1, hd, hr⟩
      · rw [hw]
        exact hpending _ hp ha hw h0 hd hr
      · rw [hw]
        exact hkeep
    | succ n =>
      simp only [jsonpStep, hgetS]
      exact hkeep

theorem jsonpRun_inv (name : String) (events : List JsonpEvent) :
    ∀ p : Page, JsonpInv name p →
      JsonpInv name (jsonpRun p events) ∧
      (∀ c, p.calls = [c] → c.promise ≠ none →
        ∃ c2, (jsonpRun p events).calls = [c2] ∧ c2.promise = c.promise) := by
  induction events with
  | nil => intro p h; exact ⟨h, fun c hc _ => ⟨c, hc, rfl⟩⟩
  | cons ev evs ih =>
    intro p h
    obtain ⟨s1, s2⟩ := jsonpStep_inv name p ev h
    obtain ⟨r1, r2⟩ := ih (jsonpStep p ev) s1
    refine ⟨r1, ?_⟩
    intro c hc hne
    obtain ⟨c2, hc2, hp2⟩ := s2 c hc hne
    obtain ⟨c3, hc3, hp3⟩ := r2 c2 hc2 (by rw [hp2]; exact hne)
    exact ⟨c3, hc3, hp3.trans hp2⟩

theorem loadWithJSONP_inv (now : Nat) :
    JsonpInv (callbackName now) (loadWithJSONP Page.empty now) :=
  ⟨_, rfl, rfl, Or.inl ⟨rfl, rfl, rfl, by simp [loadWithJSONP, Page.empty], rfl, rfl, rfl⟩⟩

/-- An event addressed to a pending request is an exit path: its handler runs
`cleanup` once, which deregisters the callback, removes the script element and
clears the timer, and settles the promise. -/
theorem jsonpStep_exit (name : String) (p : Page) (c : JsonpCall) (ev : JsonpEvent)
    (hc : p.calls = [c]) (hname : c.callbackName = name) (hp : c.promise = none)
    (ht : c.timerArmed = true) (ha : c.scriptAttached = true) (hw : p.window name = some 0)
    (h0 : c.cleanupCalls = 0) (hd : c.deregistrations = 0) (hr : c.removals = 0)
    (htarget : ev.target = 0) :
    (jsonpStep p ev).calls =
      [{ callbackName := name, timerArmed := false, scriptAttached := false,
         promise := some ev.settlement, cleanupCalls := 1, deregistrations := 1,
         removals := 1 }] ∧
    (jsonpStep p ev).window name = none := by
  have hget0 : p.calls[0]? = some c := by rw [hc]; rfl
  have hpend := fun result =>
    cleanup_settle_pending name p c result hc hname hp ha hw h0 hd hr
  cases ev with
  | timeout i =>
    simp only [JsonpEvent.target] at htarget
    subst htarget
    simp only [jsonpStep, hget0, ht, if_true]
    exact hpend _
  | scriptError i =>
    simp only [JsonpEvent.target] at htarget
    subst htarget
    simp only [jsonpStep, hget0]
    exact hpend _
  | scriptRuns i data =>
    simp only [JsonpEvent.target] at htarget
    subst htarget
    simp only [jsonpStep, hget0, hname, hw]
    exact hpend _

/-- An event addressed to another invocation reaches no handler of this one. -/
theorem jsonpStep_other (p : Page) (c : JsonpCall) (ev : JsonpEvent)
    (hc : p.calls = [c]) (htarget : ev.target ≠ 0) : jsonpStep p ev = p := by
  have hgetS : ∀ n, p.calls[n + 1]? = none := by intro n; rw [hc]; rfl
  cases ev with
  | timeout i =>
    cases i with
    | zero => exact absurd rfl htarget
    | succ n => simp only [jsonpStep, hgetS]
  | scriptError i =>
    cases i with
    | zero => exact absurd rfl htarget
    | succ n => simp only [jsonpStep, hgetS]
  | scriptRuns i data =>
    cases i with
    | zero => exact absurd rfl htarget
    | succ n => simp only [jsonpStep, hgetS]

theorem jsonpRun_snoc (p : Page) (events : List JsonpEvent) (ev : JsonpEvent) :
    jsonpRun p (events ++ [ev]) = jsonpStep (jsonpRun p events) ev := by
  simp [jsonpRun, List.foldl_append]

/-- C5. For one call of `loadWithJSONP` and the events callback invoked, script
load error and timeout in any order and number: on every exit path, that is on
any of the three events reaching the pending request (resolve on the callback,
reject on the load error, reject on the timeout), `cleanup` is performed exactly
once, and after it the global callback is deregistered, the script element is out
of the document and the timer is cleared, the callback having been deregistered
once and the script removed once; whatever events follow, these stay so and the
promise keeps the settlement of the exit path, so it is settled at most once.
While no such event has come the request is pending with nothing released. -/
theorem jsonp_cleanup_spec (now : Nat) :
    (jsonpRun (loadWithJSONP Page.empty now) [.timeout 0]).calls =
      [{ callbackName := callbackName now, timerArmed := false, scriptAttached := false,
         promise := some (.rejected "Timeout en conexión JSONP"),
         cleanupCalls := 1, deregistrations := 1, removals := 1 }] ∧
    (jsonpRun (loadWithJSONP Page.empty now) [.scriptError 0]).calls =
      [{ callbackName := callbackName now, timerArmed := false, scriptAttached := false,
         promise := some (.rejected "Error al cargar script JSONP"),
         cleanupCalls := 1, deregistrations := 1, removals := 1 }] ∧
    (∀ data, (jsonpRun (loadWithJSONP Page.empty now) [.scriptRuns 0 data]).calls =
      [{ callbackName := callbackName now, timerArmed := false, scriptAttached := false,
         promise := some (.resolved data),
         cleanupCalls := 1, deregistrations := 1, removals := 1 }]) ∧
    (∀ (events : List JsonpEvent) (ev : JsonpEvent) (c : JsonpCall),
      (jsonpRun (loadWithJSONP Page.empty now) events).calls = [c] → c.promise = none →
      (ev.target = 0 →
        (jsonpRun (loadWithJSONP Page.empty now) (events ++ [ev])).calls =
          [{ callbackName := callbackName now, timerArmed := false, scriptAttached := false,
             promise := some ev.settlement, cleanupCalls := 1, deregistrations := 1,
             removals := 1 }] ∧
        (jsonpRun (loadWithJSONP Page.empty now) (events ++ [ev])).window (callbackName now) =
          none) ∧
      (ev.target ≠ 0 →
        jsonpRun (loadWithJSONP Page.empty now) (events ++ [ev]) =
          jsonpRun (loadWithJSONP Page.empty now) events)) ∧
    (∀ events : List JsonpEvent,
      ∃ c, (jsonpRun (loadWithJSONP Page.empty now) events).calls = [c] ∧
        c.callbackName = callbackName now ∧
        (c.promise = none →
          c.timerArmed = true ∧ c.scriptAttached = true ∧ c.cleanupCalls = 0 ∧
          (jsonpRun (loadWithJSONP Page.empty now) events).window (callbackName now) = some 0) ∧
        (c.promise ≠ none →
          c.timerArmed = false ∧ c.scriptAttached = false ∧
          (jsonpRun (loadWithJSONP Page.empty now) events).window (callbackName now) = none ∧
          c.deregistrations = 1 ∧ c.removals = 1 ∧ 1 ≤ c.cleanupCalls) ∧
        (∀ more : List JsonpEvent, c.promise ≠ none →
          ∃ c2, (jsonpRun (loadWithJSONP Page.empty now) (events ++ more)).calls = [c2] ∧
            c2.promise = c.promise)) := by
  have hpend := fun result => cleanup_settle_pending (callbackName now)
    (loadWithJSONP Page.empty now) _ result rfl rfl rfl rfl
    (by simp [loadWithJSONP, Page.empty]) rfl rfl rfl
  refine ⟨?_, ?_, ?_, ?_, ?_⟩
  · exact (hpend _).1
  · exact (hpend _).1
  · intro data
    have hw : (loadWithJSONP Page.empty now).window (callbackName now) = some 0 := by
      simp [loadWithJSONP, Page.empty]
    simp only [jsonpRun, List.foldl_cons, List.foldl_nil, jsonpStep]
    have hget : (loadWithJSONP Page.empty now).calls[0]? = some
        { callbackName := callbackName now, timerArmed := true, scriptAttached := true,
          promise := none, cleanupCalls := 0, deregistrations := 0, removals := 0 } := rfl
    rw [hget]
    simp only [hw]
    exact (hpend _).1
  · intro events ev c hc hp
    obtain ⟨⟨c1, hc1, hname, hcase⟩, -⟩ :=
      jsonpRun_inv (callbackName now) events (loadWithJSONP Page.empty now)
        (loadWithJSONP_inv now)
    rw [hc] at hc1
    cases hc1
    rw [jsonpRun_snoc]
    constructor
    · intro htarget
      rcases hcase with ⟨-, ht, ha, hw, h0, hd, hr⟩ | ⟨hne, -⟩
      · exact jsonpStep_exit (callbackName now) _ c ev hc hname hp ht ha hw h0 hd hr htarget
      · exact absurd hp hne
    · intro htarget
      exact jsonpStep_other _ c ev hc htarget
  · intro events
    obtain ⟨⟨c, hc, hname, hcase⟩, hstable⟩ :=
      jsonpRun_inv (callbackName now) events (loadWithJSONP Page.empty now)
        (loadWithJSONP_inv now)
    refine ⟨c, hc, hname, ?_, ?_, ?_⟩
    · intro hp
      rcases hcase with ⟨-, ht, ha, hw, h0, -, -⟩ | ⟨hne, -⟩
      · exact ⟨ht, ha, h0, hw⟩
      · exact absurd hp hne
    · intro hne
      rcases hcase with ⟨hp, -⟩ | ⟨-, ht, ha, hw, h1, hd, hr⟩
      · exact absurd hp hne
      · exact ⟨ht, ha, hw, hd, hr, h1⟩
    · intro more hne
      have hrun : jsonpRun (loadWithJSONP Page.empty now) (events ++ more) =
          jsonpRun (jsonpRun (loadWithJSONP Page.empty now) events) more := by
        simp [jsonpRun, List.foldl_append]
      rw [hrun]
      exact (jsonpRun_inv (callbackName now) more _ ⟨c, hc, hname, hcase⟩).2 c hc hne

/-- Witness of C5: with no event yet the request is pending, and the timeout is
then an exit path. -/
theorem jsonp_cleanup_spec_witness :
    (jsonpRun (loadWithJSONP Page.empty 1700000000000) []).calls =
      [{ callbackName := callbackName 1700000000000, timerArmed := true, scriptAttached := true,
         promise := none, cleanupCalls := 0, deregistrations := 0, removals := 0 }] ∧
    (JsonpEvent.timeout 0).target = 0 ∧
    (jsonpRun (loadWithJSONP Page.empty 1700000000000) ([] ++ [.timeout 0])).calls =
      [{ callbackName := callbackName 1700000000000, timerArmed := false,
         scriptAttached := false, promise := some (JsonpEvent.timeout 0).settlement,
         cleanupCalls := 1, deregistrations := 1, removals := 1 }] :=
  ⟨rfl, rfl,
    (((jsonp_cleanup_spec 1700000000000).2.2.2.1 [] (.timeout 0) _ rfl rfl).1 rfl).1⟩

/-- Remark on C5: the `onerror` handler stays on the script element, so a load
error that arrives after the timeout has settled the promise runs the handler
again; it finds nothing to release: the callback has still been deregistered once
and the script removed once, and the promise keeps the timeout. -/
theorem late_error_reenters_cleanup :
    (jsonpRun (loadWithJSONP Page.empty 1700000000000) [.timeout 0, .scriptError 0]).calls =
      [{ callbackName := "jsonpCallback_1700000000000", timerArmed := false,
         scriptAttached := false, promise := some (.rejected "Timeout en conexión JSONP"),
         cleanupCalls := 2, deregistrations := 1, removals := 1 }] := by
  decide

/-- C6, the code at two calls made at the same clock reading: both register the
same global name, the second call overwrites the callback of the first, the
`cleanup` of the first (here on its timeout) deletes the callback of the second
while the second is pending, so that the response of the second is lost; and the
response of the first settles the second call. -/
theorem callback_name_collision :
    collidingPage.calls.map (fun c => c.callbackName) =
      ["jsonpCallback_1700000000000", "jsonpCallback_1700000000000"] ∧
    collidingPage.window "jsonpCallback_1700000000000" = some 1 ∧
    (jsonpRun collidingPage [.timeout 0]).window "jsonpCallback_1700000000000" = none ∧
    (jsonpRun collidingPage [.timeout 0]).calls.map (fun c => c.promise) =
      [some (.rejected "Timeout en conexión JSONP"), none] ∧
    (jsonpRun collidingPage [.timeout 0, .scriptRuns 1 (.envelope sampleEnvelope)]).calls.map
        (fun c => c.promise) =
      [some (.rejected "Timeout en conexión JSONP"), none] ∧
    (jsonpRun collidingPage [.scriptRuns 0 (.envelope sampleEnvelope)]).calls.map
        (fun c => c.promise) =
      [none, some (.resolved (.envelope sampleEnvelope))] := by
  decide

/-! ## Failures of a refresh cycle -/

theorem tryBlock_thrown (s : State) (showLoading : Bool) (primary : PrimaryOutcome)
    (fallback : JsonpResult) :
    (tryBlock s showLoading primary fallback).2 = failureMessage primary fallback := by
  unfold tryBlock failureMessage
  cases hres : (fetchData primary fallback).result with
  | error message => simp [hres]
  | ok data =>
    cases data with
    | nullish message => simp [hres]
    | envelope e =>
      by_cases he : e.hasError = true
      · simp [hres, he]
      · simp only [hres, he]
        by_cases hc : (afterFetch (beginCycle s showLoading)
            (fetchData primary fallback)).lastUpdateTime = e.lastUpdated ∧
            (afterFetch (beginCycle s showLoading)
              (fetchData primary fallback)).reviewsData.length > 0
        · simp [hc]
        · simp [hc]

/-- A cycle whose `try` block throws ends in the `catch` block. -/
theorem load_failed (s : State) (showLoading : Bool) (primary : PrimaryOutcome)
    (fallback : JsonpResult) (message : String)
    (h : failureMessage primary fallback = some message) :
    loadReviewsFromSheets s showLoading primary fallback =
      hideLoading (handleLoadError
        (afterFetch (beginCycle s showLoading) (fetchData primary fallback)) message) := by
  unfold failureMessage at h
  cases hres : (fetchData primary fallback).result with
  | error m =>
    rw [hres] at h
    cases h
    exact load_fetch_failed s showLoading primary fallback _ hres
  | ok data =>
    cases data with
    | nullish m =>
      rw [hres] at h
      cases h
      exact load_nullish s showLoading primary fallback _ hres
    | envelope e =>
      rw [hres] at h
      by_cases he : e.hasError = true
      · simp only [he, if_true, Option.some.injEq] at h
        rw [← h]
        exact load_error_envelope s showLoading primary fallback e hres he
      · simp [he] at h

/-- A cycle whose `try` block does not throw got an envelope past the error test. -/
theorem delivered_of_no_failure (c : Cycle)
    (h : failureMessage c.primary c.fallback = none) : ∃ e, c.delivered = some e := by
  unfold failureMessage at h
  unfold Cycle.delivered
  cases hres : (fetchData c.primary c.fallback).result with
  | error m => rw [hres] at h; cases h
  | ok data =>
    cases data with
    | nullish m => rw [hres] at h; cases h
    | envelope e =>
      rw [hres] at h
      by_cases he : e.hasError = true
      · simp [he] at h
      · exact ⟨e, by simp [he]⟩

theorem errorHTML_retry (message : String) : OccursIn retryButton (errorHTML message) := by
  refine ⟨"\n            <div style=\"text-align: center; padding: 2rem;\">"
      ++ "\n                <p>⚠️ No se pudieron cargar las reseñas: " ++ message ++ "</p>"
      ++ "\n                ",
    "\n                    🔄 Intentar de nuevo"
      ++ "\n                </button>"
      ++ "\n                <p style=\"font-size: 0.9rem; color: #7f8c8d; margin-top: 1rem;\">"
      ++ "\n                    Si el problema persiste, verifica que el Google Apps Script esté correctamente configurado."
      ++ "\n                </p>"
      ++ "\n            </div>"
      ++ "\n        ", ?_⟩
  simp only [errorHTML, retryButton, String.append_assoc]
  rfl

/-- The loading element at the end of any cycle. -/
theorem load_loadingMessage (s : State) (showLoading : Bool) (primary : PrimaryOutcome)
    (fallback : JsonpResult) :
    (loadReviewsFromSheets s showLoading primary fallback).dom.loadingMessage =
      setDisplay "none" s.dom.loadingMessage := by
  have hbegin : (afterFetch (beginCycle s showLoading)
      (fetchData primary fallback)).dom.loadingMessage =
      (if showLoading then setDisplay "block" s.dom.loadingMessage
       else s.dom.loadingMessage) := by
    rw [(afterFetch_fields _ _).2.2.1]
    cases showLoading <;> simp [beginCycle]
  have hnone : setDisplay "none" (if showLoading then setDisplay "block" s.dom.loadingMessage
      else s.dom.loadingMessage) = setDisplay "none" s.dom.loadingMessage := by
    cases showLoading <;> simp [setDisplay_setDisplay]
  cases hf : failureMessage primary fallback with
  | some message =>
    rw [load_failed s showLoading primary fallback message hf,
      (handled_fields _ message).2.2.2.2.2.2.2.2.1, hbegin, hnone]
  | none =>
    obtain ⟨e, he⟩ := delivered_of_no_failure ⟨showLoading, primary, fallback⟩ hf
    obtain ⟨hres, herr⟩ := (delivered_iff _ e).mp he
    by_cases hskip : s.lastUpdateTime = e.lastUpdated ∧ s.reviewsData ≠ []
    · rw [load_unchanged s showLoading primary fallback e hres herr hskip.1 hskip.2]
      simp only [hideLoading, setDisplay_setDisplay]
      rw [hbegin, hnone]
    · have hnew : s.lastUpdateTime ≠ e.lastUpdated ∨ s.reviewsData = [] := by
        by_cases ht : s.lastUpdateTime = e.lastUpdated
        · right
          by_contra hne
          exact hskip ⟨ht, hne⟩
        · left; exact ht
      rw [load_changed s showLoading primary fallback e hres herr hnew]
      simp only [hideLoading, displayReviews]
      rw [(displayReviewsDom_fields _ _).2.2.2.2.2]
      simp only [updateRatingSummary, updateRatingSummaryDom]
      rw [hbegin, hnone]

theorem failureMessage_both_fail (primary : PrimaryOutcome) (fallback : JsonpResult)
    (message : String) (hp : primary.delivers = none) (hf : fallback = .rejected message) :
    failureMessage primary fallback = some message := by
  subst hf
  rcases primary with m | ⟨ok, status, json⟩
  · rfl
  · cases ok <;> cases json <;> simp_all [PrimaryOutcome.delivers, failureMessage, fetchData]

theorem failureMessage_cases (primary : PrimaryOutcome) (fallback : JsonpResult)
    (message : String) (h : failureMessage primary fallback = some message) :
    (primary.delivers = none ∧ fallback = .rejected message) ∨
    (fetchData primary fallback).result = .ok (.nullish message) ∨
    (∃ e, (fetchData primary fallback).result = .ok (.envelope e) ∧
      e.error = some message ∧ message ≠ "") := by
  unfold failureMessage at h
  cases hres : (fetchData primary fallback).result with
  | error m =>
    rw [hres] at h
    cases h
    left
    rcases primary with m2 | ⟨ok, status, json⟩
    · cases fallback <;> simp_all [PrimaryOutcome.delivers, fetchData]
    · cases ok <;> cases json <;> cases fallback <;>
        simp_all [PrimaryOutcome.delivers, fetchData]
  | ok data =>
    cases data with
    | nullish m =>
      rw [hres] at h
      cases h
      right; left; rfl
    | envelope e =>
      rw [hres] at h
      right; right
      refine ⟨e, rfl, ?_⟩
      cases herr : e.error with
      | none => simp [Envelope.hasError, herr] at h
      | some m =>
        by_cases hm : m = ""
        · simp [Envelope.hasError, herr, hm] at h
        · simp [Envelope.hasError, herr, hm] at h
          subst h
          exact ⟨rfl, hm⟩

theorem timeout_first (now : Nat) (more : List JsonpEvent) :
    ∃ c, (jsonpRun (loadWithJSONP Page.empty now) (.timeout 0 :: more)).calls = [c] ∧
      c.promise = some (.rejected "Timeout en conexión JSONP") := by
  have hpend := cleanup_settle_pending (callbackName now)
    (loadWithJSONP Page.empty now) _ (.rejected "Timeout en conexión JSONP") rfl rfl rfl rfl
    (by simp [loadWithJSONP, Page.empty]) rfl rfl rfl
  have hstep : jsonpStep (loadWithJSONP Page.empty now) (.timeout 0) =
      settle (cleanup (loadWithJSONP Page.empty now) 0) 0
        (.rejected "Timeout en conexión JSONP") := rfl
  have hrun : jsonpRun (loadWithJSONP Page.empty now) (.timeout 0 :: more) =
      jsonpRun (jsonpStep (loadWithJSONP Page.empty now) (.timeout 0)) more := rfl
  rw [hrun, hstep]
  have hinv : JsonpInv (callbackName now)
      (settle (cleanup (loadWithJSONP Page.empty now) 0) 0
        (.rejected "Timeout en conexión JSONP")) :=
    ⟨_, hpend.1, rfl, Or.inr ⟨by simp, rfl, rfl, hpend.2, le_refl _, rfl, rfl⟩⟩
  obtain ⟨c2, hc2, hp2⟩ := (jsonpRun_inv (callbackName now) more _ hinv).2 _ hpend.1 (by simp)
  exact ⟨c2, hc2, hp2⟩

theorem cycle_factors :
    ∃ rest : State → FetchResult → State,
      ∀ (s : State) (showLoading : Bool) (primary : PrimaryOutcome) (fallback : JsonpResult),
        loadReviewsFromSheets s showLoading primary fallback =
          rest (beginCycle s showLoading) (fetchData primary fallback) := by
  refine ⟨fun s2 fetched =>
    let s3 := afterFetch s2 fetched
    let (s1, thrown) : State × Option String :=
      match fetched.result with
      | .error message => (s3, some message)
      | .ok (.nullish typeErrorMessage) => (s3, some typeErrorMessage)
      | .ok (.envelope data) =>
        if data.hasError then (s3, some (data.error.getD ""))
        else
          if s3.lastUpdateTime = data.lastUpdated ∧ s3.reviewsData.length > 0 then
            (hideLoading s3, none)
          else
            let s4 : State :=
              { s3 with reviewsData := data.reviews.getD [], lastUpdateTime := data.lastUpdated }
            let s5 := updateRatingSummary s4 data.summary
            (displayReviews s5 s5.reviewsData, none)
    hideLoading (match thrown with
      | some message => handleLoadError s1 message
      | none => s1), ?_⟩
  intro s showLoading primary fallback
  rfl

/-- C11, as the code has it. Every failure of a refresh cycle — both transports
fail, the data is `null` or `undefined`, or the envelope has a non-empty `error` —
with message `m` is taken by the `catch` block: `loadReviewsFromSheets` ends in a
state, with the cache as it was, `handleLoadError` called with `m`, the error
element displayed with the retry button and `m` in its markup, and the "no
reviews" placeholder shown when the cache is empty and left as it was when it is
not. When the primary returns HTTP 500 and the timer of the fallback expires on
the pending request, `m` is the timeout message. -/
theorem failure_shows_banner :
    (∀ (s : State) (showLoading : Bool) (primary : PrimaryOutcome) (fallback : JsonpResult)
        (m : String), failureMessage primary fallback = some m →
      (tryBlock s showLoading primary fallback).2 = some m ∧
      (loadReviewsFromSheets s showLoading primary fallback).dom.errorMessage =
        setContent (errorHTML m) (setDisplay "block" s.dom.errorMessage) ∧
      (∀ el ∈ (loadReviewsFromSheets s showLoading primary fallback).dom.errorMessage,
        el.display = "block" ∧ OccursIn m el.content ∧ OccursIn retryButton el.content) ∧
      (loadReviewsFromSheets s showLoading primary fallback).dom.noReviews =
        (if s.reviewsData = [] then setDisplay "block" s.dom.noReviews else s.dom.noReviews) ∧
      (loadReviewsFromSheets s showLoading primary fallback).calls =
        s.calls ++
          (if (fetchData primary fallback).fallbackStarted then [Call.loadWithJSONP] else []) ++
          [Call.handleLoadError m] ∧
      (loadReviewsFromSheets s showLoading primary fallback).reviewsData = s.reviewsData ∧
      (loadReviewsFromSheets s showLoading primary fallback).lastUpdateTime =
        s.lastUpdateTime) ∧
    (∀ (primary : PrimaryOutcome) (fallback : JsonpResult) (m : String),
      failureMessage primary fallback = some m ↔
        ((primary.delivers = none ∧ fallback = .rejected m) ∨
         (fetchData primary fallback).result = .ok (.nullish m) ∨
         (∃ e, (fetchData primary fallback).result = .ok (.envelope e) ∧
           e.error = some m ∧ m ≠ ""))) ∧
    (∀ (now : Nat) (more : List JsonpEvent),
      ∃ c, (jsonpRun (loadWithJSONP Page.empty now) (.timeout 0 :: more)).calls = [c] ∧
        c.promise = some (.rejected "Timeout en conexión JSONP")) ∧
    (∀ (s : State) (showLoading : Bool) (json : Except String Payload),
      (fetchData (.response false 500 json)
        (.rejected "Timeout en conexión JSONP")).fallbackStarted = true ∧
      (loadReviewsFromSheets s showLoading (.response false 500 json)
          (.rejected "Timeout en conexión JSONP")).dom.errorMessage =
        setContent (errorHTML "Timeout en conexión JSONP")
          (setDisplay "block" s.dom.errorMessage)) := by
  have hmain : ∀ (s : State) (showLoading : Bool) (primary : PrimaryOutcome)
      (fallback : JsonpResult) (m : String), failureMessage primary fallback = some m →
      (loadReviewsFromSheets s showLoading primary fallback).dom.errorMessage =
        setContent (errorHTML m) (setDisplay "block" s.dom.errorMessage) := by
    intro s showLoading primary fallback m h
    rw [load_failed s showLoading primary fallback m h, (handled_fields _ m).2.2.2.1,
      (fetched_state_fields s showLoading _).2.2.2.1, setDisplay_setDisplay]
  refine ⟨?_, ?_, timeout_first, ?_⟩
  · intro s showLoading primary fallback m h
    have hE := hmain s showLoading primary fallback m h
    refine ⟨by rw [tryBlock_thrown, h], hE, ?_, ?_⟩
    · intro el hel
      rw [hE] at hel
      cases hdom : s.dom.errorMessage with
      | none => simp [hdom, setContent, setDisplay] at hel
      | some el0 =>
        simp [hdom, setContent, setDisplay] at hel
        subst hel
        exact ⟨rfl, errorHTML_occurs m, errorHTML_retry m⟩
    · rw [load_failed s showLoading primary fallback m h]
      obtain ⟨h1, h2, h3, -, -, -, -, -, -, h10⟩ :=
        handled_fields (afterFetch (beginCycle s showLoading) (fetchData primary fallback)) m
      obtain ⟨f1, f2, f3, -, f5, -⟩ :=
        fetched_state_fields s showLoading (fetchData primary fallback)
      rw [h1, h2, h3, h10, f1, f2, f3, f5]
      refine ⟨?_, rfl, rfl, rfl⟩
      by_cases hc : s.reviewsData = []
      · simp [hc]
      · have hlen : s.reviewsData.length ≠ 0 := fun h0 => hc (List.length_eq_zero.mp h0)
        simp [hc, hlen]
  · intro primary fallback m
    constructor
    · exact failureMessage_cases primary fallback m
    · rintro (⟨hp, hf⟩ | hn | ⟨e, hres, herr, hne⟩)
      · exact failureMessage_both_fail primary fallback m hp hf
      · simp [failureMessage, hn]
      · obtain ⟨hE, hmsg⟩ := hasError_of_nonempty e m herr hne
        simp [failureMessage, hres, hE, hmsg]
  · intro s showLoading json
    refine ⟨?_, ?_⟩
    · cases json <;> rfl
    · exact hmain s showLoading _ _ _
        (failureMessage_both_fail _ _ _ (by cases json <;> rfl) rfl)

/-- Witness of C11: the primary answers HTTP 500 and the fallback times out while
one review is cached. -/
theorem failure_shows_banner_witness :
    failureMessage (.response false 500 (.error "no body"))
      (.rejected "Timeout en conexión JSONP") = some "Timeout en conexión JSONP" ∧
    (loadReviewsFromSheets cachedState true (.response false 500 (.error "no body"))
        (.rejected "Timeout en conexión JSONP")).calls =
      [Call.loadWithJSONP, Call.handleLoadError "Timeout en conexión JSONP"] ∧
    (loadReviewsFromSheets cachedState true (.response false 500 (.error "no body"))
        (.rejected "Timeout en conexión JSONP")).dom.noReviews =
      some { display := "", content := "" } :=
  have h := failure_shows_banner.1 cachedState true (.response false 500 (.error "no body"))
    (.rejected "Timeout en conexión JSONP") "Timeout en conexión JSONP" rfl
  ⟨rfl, h.2.2.2.2.1, h.2.2.2.1⟩

/-- Counterexample to C11 as stated: the fallback delivers an envelope whose
`error` is the empty string; the cycle is not a failure for the code, the error
element stays hidden and `handleLoadError` is not called. -/
theorem empty_error_string_shows_no_banner :
    (loadReviewsFromSheets cachedState false (.rejected "Failed to fetch")
        (.resolved (.envelope emptyErrorEnvelope))).dom.errorMessage =
      some { display := "none", content := "" } ∧
    (loadReviewsFromSheets cachedState false (.rejected "Failed to fetch")
        (.resolved (.envelope emptyErrorEnvelope))).calls =
      [Call.loadWithJSONP, Call.updateRatingSummary none, Call.displayReviews [sampleReview]] ∧
    (loadReviewsFromSheets cachedState false (.rejected "Failed to fetch")
        (.resolved (.envelope emptyErrorEnvelope))).lastUpdateTime = .str "v1" := by
  decide

/-- C12. For every value of `showLoading`, every state of the cache and every
outcome of the two transports (so for a changed envelope, an unchanged one, an
error envelope and both transports failing alike), the loading element is hidden
when `loadReviewsFromSheets` completes; the error element is hidden by the first
statements of the cycle, which do not depend on the fetch, and the rest of the
cycle starts from the state they leave. -/
theorem loading_hidden_error_reset (s : State) (showLoading : Bool)
    (primary : PrimaryOutcome) (fallback : JsonpResult) :
    (loadReviewsFromSheets s showLoading primary fallback).dom.loadingMessage =
      setDisplay "none" s.dom.loadingMessage ∧
    (∀ el ∈ (loadReviewsFromSheets s showLoading primary fallback).dom.loadingMessage,
      el.display = "none") ∧
    (beginCycle s showLoading).dom.errorMessage = setDisplay "none" s.dom.errorMessage ∧
    (∀ el ∈ (beginCycle s showLoading).dom.errorMessage, el.display = "none") ∧
    (beginCycle s showLoading).dom.loadingMessage =
      (if showLoading then setDisplay "block" s.dom.loadingMessage
       else s.dom.loadingMessage) ∧
    (∃ rest : State → FetchResult → State,
      ∀ (s0 : State) (flag : Bool) (p : PrimaryOutcome) (f : JsonpResult),
        loadReviewsFromSheets s0 flag p f = rest (beginCycle s0 flag) (fetchData p f)) ∧
    (failureMessage primary fallback = none →
      (loadReviewsFromSheets s showLoading primary fallback).dom.errorMessage =
        setDisplay "none" s.dom.errorMessage) := by
  have hload := load_loadingMessage s showLoading primary fallback
  have herr := (beginCycle_fields s showLoading).2.2.2.1
  have hdisp : ∀ (value : String) (target : Option Element),
      ∀ el ∈ setDisplay value target, el.display = value := by
    intro value target el hel
    cases target with
    | none => simp [setDisplay] at hel
    | some el0 =>
      simp [setDisplay] at hel
      subst hel
      rfl
  refine ⟨hload, ?_, herr, ?_, ?_, cycle_factors, ?_⟩
  · rw [hload]; exact hdisp _ _
  · rw [herr]; exact hdisp _ _
  · cases showLoading <;> simp [beginCycle]
  · intro hf
    obtain ⟨e, he⟩ := delivered_of_no_failure ⟨showLoading, primary, fallback⟩ hf
    obtain ⟨hres, hne⟩ := (delivered_iff _ e).mp he
    have hfetched := (fetched_state_fields s showLoading (fetchData primary fallback)).2.2.2.1
    by_cases hskip : s.lastUpdateTime = e.lastUpdated ∧ s.reviewsData ≠ []
    · rw [load_unchanged s showLoading primary fallback e hres hne hskip.1 hskip.2,
        (skipped_fields _).2.2.2.2.2.2.2.1, hfetched]
    · have hnew : s.lastUpdateTime ≠ e.lastUpdated ∨ s.reviewsData = [] := by
        by_cases ht : s.lastUpdateTime = e.lastUpdated
        · right
          by_contra hne2
          exact hskip ⟨ht, hne2⟩
        · left; exact ht
      rw [load_changed s showLoading primary fallback e hres hne hnew,
        (rendered_fields _ _ _).2.2.2.2.2.2.2]
      exact hfetched

end Reviews
